import Mathlib

/-!
# RFM69_SessionKey: session-key handshake on top of the RFM69 packet radio driver

A shallow embedding of `RFM69_SessionKey.cpp` / `RFM69_SessionKey.h`.

* Bytes (`uint8_t`) are natural numbers; arithmetic that the C code performs on
  them is reduced `% 256` where it is stored back into a byte.
* The object state (the static members of the class, the members inherited from
  the base driver that this class reads or writes, and the hardware the code
  talks to: receive FIFO, transmitter, random source) is one record, `Node`,
  passed explicitly through every function.
* The constants `RFM69_CTL_*` and `RF69_MAX_DATA_LEN` are defined in the base
  driver's headers and are parameters of the development (`Config`).
-/

namespace RFM69SessionKey

/-- Operating modes of the transceiver (`RF69_MODE_*` of the base driver). -/
inductive Mode where
  | sleep
  | standby
  | synth
  | rx
  | tx
  deriving DecidableEq, Repr

/-- Constants the session-key class takes from the base driver's headers. They are
not defined in `RFM69_SessionKey.h` or `RFM69_SessionKey.cpp`, so they are parameters. -/
structure Config where
  RFM69_CTL_SENDACK : Nat
  RFM69_CTL_REQACK : Nat
  RFM69_CTL_EXT1 : Nat
  RFM69_CTL_EXT2 : Nat
  RF69_MAX_DATA_LEN : Nat
  deriving DecidableEq, Repr

/-- State of one radio node.

The first five fields are the members declared in `RFM69_SessionKey.h`. The next
six are members inherited from the base driver that the session-key code reads
or writes. The last three stand for the hardware: the bytes still unread in the
receive FIFO (read with `SPI.transfer(0)`), the frames written to the transmit
FIFO so far (oldest first, each without the FIFO-write address byte), and the
values that coming calls of `random` will produce. -/
structure Node where
  _sessionKeyEnabled : Bool
  SESSION_KEY_INCLUDED : Nat
  SESSION_KEY_REQUESTED : Nat
  SESSION_KEY : Nat
  INCOMING_SESSION_KEY : Nat
  _mode : Mode
  _address : Nat
  DATALEN : Nat
  PAYLOADLEN : Nat
  SENDERID : Nat
  RSSI : Int
  fifo : List Nat
  sent : List (List Nat)
  randomSource : List Nat
  deriving DecidableEq, Repr

/-- A sample instantiation of the header constants: four distinct bits of the
control byte and a maximum payload of 61 bytes. -/
def sampleConfig : Config :=
  { RFM69_CTL_SENDACK := 0x80, RFM69_CTL_REQACK := 0x40,
    RFM69_CTL_EXT1 := 0x20, RFM69_CTL_EXT2 := 0x10, RF69_MAX_DATA_LEN := 61 }

/-- A node with the given address and session support switched as given, everything
else at its power-up value. -/
def sampleNode (address : Nat) (enabled : Bool) : Node :=
  { _sessionKeyEnabled := enabled, SESSION_KEY_INCLUDED := 0, SESSION_KEY_REQUESTED := 0,
    SESSION_KEY := 0, INCOMING_SESSION_KEY := 0, _mode := Mode.standby, _address := address,
    DATALEN := 0, PAYLOADLEN := 0, SENDERID := 0, RSSI := 0, fifo := [], sent := [],
    randomSource := [] }

/-- The four control-byte masks are distinct single bits of a byte. -/
def Config.DistinctBits (cfg : Config) : Prop :=
  cfg.RFM69_CTL_SENDACK ∈ [1, 2, 4, 8, 16, 32, 64, 128] ∧
  cfg.RFM69_CTL_REQACK ∈ [1, 2, 4, 8, 16, 32, 64, 128] ∧
  cfg.RFM69_CTL_EXT1 ∈ [1, 2, 4, 8, 16, 32, 64, 128] ∧
  cfg.RFM69_CTL_EXT2 ∈ [1, 2, 4, 8, 16, 32, 64, 128] ∧
  [cfg.RFM69_CTL_SENDACK, cfg.RFM69_CTL_REQACK, cfg.RFM69_CTL_EXT1, cfg.RFM69_CTL_EXT2].Nodup

instance (cfg : Config) : Decidable cfg.DistinctBits := by
  unfold Config.DistinctBits; infer_instance

/-! ## Base driver and hardware primitives

The base class `RFM69` is an external library. Only the effect of its
primitives on the members this class uses is represented. -/

/-- Modelled from the spec: `setMode` of the base driver (RadioLink `setMode()`),
which is not among the sources; it switches the transceiver to the given mode. -/
def setMode (newMode : Mode) (s : Node) : Node :=
  { s with _mode := newMode }

/-- Modelled from the spec: `RFM69::receiveBegin` of the base driver (RadioLink
`beginListening()`), which is not among the sources; it forgets the frame
received last and puts the transceiver in receive mode. -/
def baseReceiveBegin (s : Node) : Node :=
  setMode Mode.rx { s with DATALEN := 0, SENDERID := 0, PAYLOADLEN := 0, RSSI := 0 }

/-- Reading one byte of the receive FIFO, `SPI.transfer(0)`. An exhausted FIFO reads as 0. -/
def spiRead (s : Node) : Nat × Node :=
  (s.fifo.headD 0, { s with fifo := s.fifo.tail })

/-- Arduino `random(howbig)`: the next value of the random source, below `howbig`. -/
def random (howbig : Nat) (s : Node) : Nat × Node :=
  (s.randomSource.headD 0 % howbig, { s with randomSource := s.randomSource.tail })

/-- Modelled from the spec: `canSend` of the base driver, which is not among the
sources (the carrier-sense wait of the RadioLink): the channel can be used when the
node is listening, holds no received frame, and the channel reading `free` is quiet;
the transceiver is then put in standby. -/
def canSend (free : Bool) (s : Node) : Bool × Node :=
  if s._mode = Mode.rx ∧ s.PAYLOADLEN = 0 ∧ free = true then (true, setMode Mode.standby s)
  else (false, s)

/-! ## The session-key class -/

/-- Source: `RFM69_SessionKey::sessionKeyEnabled`. -/
def sessionKeyEnabled (s : Node) : Bool :=
  s._sessionKeyEnabled

/-- Source: `RFM69_SessionKey::useSessionKey`. -/
def useSessionKey (onOff : Bool) (s : Node) : Node :=
  { s with _sessionKeyEnabled := onOff }

/-- The control byte `sendFrame` builds from its four flags. -/
def ctlByte (cfg : Config) (requestACK sendACK sessionRequested sessionIncluded : Bool) : Nat :=
  let CTLbyte := 0x00
  let CTLbyte := if sendACK then CTLbyte ||| cfg.RFM69_CTL_SENDACK else CTLbyte
  let CTLbyte := if requestACK then CTLbyte ||| cfg.RFM69_CTL_REQACK else CTLbyte
  let CTLbyte := if sessionRequested then CTLbyte ||| cfg.RFM69_CTL_EXT1 else CTLbyte
  let CTLbyte := if sessionIncluded then CTLbyte ||| cfg.RFM69_CTL_EXT2 else CTLbyte
  CTLbyte

/-- The bytes `sendFrame` writes to the FIFO after the FIFO-write address byte
`REG_FIFO | 0x80`, in the order of its `SPI.transfer` calls. `bufferSize` is the
size after the clamp to `RF69_MAX_DATA_LEN`; a buffer position past the end of
`buffer` reads as 0. -/
def frameBytes (cfg : Config) (toAddress : Nat) (buffer : List Nat) (bufferSize : Nat)
    (requestACK sendACK sessionRequested sessionIncluded : Bool) (s : Node) : List Nat :=
  [if sessionIncluded then (bufferSize + 4) % 256 else (bufferSize + 3) % 256,
    toAddress, s._address,
    ctlByte cfg requestACK sendACK sessionRequested sessionIncluded]
  ++ (if sessionIncluded then [s.SESSION_KEY] else [])
  ++ (List.range bufferSize).map (fun i => buffer.getD i 0)

/-- Source: the seven-argument `RFM69_SessionKey::sendFrame`. The two busy waits
(mode ready, packet sent) and the DIO mapping write do not touch the state. -/
def sendFrame (cfg : Config) (toAddress : Nat) (buffer : List Nat) (bufferSize : Nat)
    (requestACK sendACK sessionRequested sessionIncluded : Bool) (s : Node) : Node :=
  let s := setMode Mode.standby s
  let bufferSize := if bufferSize > cfg.RF69_MAX_DATA_LEN then cfg.RF69_MAX_DATA_LEN else bufferSize
  let s := { s with sent := s.sent ++
    [frameBytes cfg toAddress buffer bufferSize requestACK sendACK sessionRequested sessionIncluded s] }
  let s := setMode Mode.tx s
  setMode Mode.standby s

/-- Source: the five-argument `RFM69_SessionKey::sendFrame`, the overload that
matches the base driver. -/
def sendFrame5 (cfg : Config) (toAddress : Nat) (buffer : List Nat) (bufferSize : Nat)
    (requestACK sendACK : Bool) (s : Node) : Node :=
  sendFrame cfg toAddress buffer bufferSize requestACK sendACK false false s

/-- Source: `RFM69_SessionKey::interruptHook`. -/
def interruptHook (cfg : Config) (CTLbyte : Nat) (s : Node) : Node :=
  let s := { s with SESSION_KEY_REQUESTED := CTLbyte &&& cfg.RFM69_CTL_EXT1 }
  let s := { s with SESSION_KEY_INCLUDED := CTLbyte &&& cfg.RFM69_CTL_EXT2 }
  if sessionKeyEnabled s = true ∧ s.SESSION_KEY_REQUESTED ≠ 0 ∧ s.SESSION_KEY_INCLUDED = 0 then
    let s := setMode Mode.standby s
    let r := random 256 s
    let s : Node := { r.2 with SESSION_KEY := r.1 % 256 }
    let s := sendFrame cfg s.SENDERID [] 0 false false true true s
    { s with DATALEN := 0 }
  else if sessionKeyEnabled s = true ∧ s.SESSION_KEY_REQUESTED ≠ 0 ∧ s.SESSION_KEY_INCLUDED ≠ 0 then
    let r := spiRead s
    let s : Node := { r.2 with SESSION_KEY := r.1 }
    { s with DATALEN := 0 }
  else if sessionKeyEnabled s = true ∧ s.SESSION_KEY_INCLUDED ≠ 0 ∧ s.SESSION_KEY_REQUESTED = 0 then
    let r := spiRead s
    let s : Node := { r.2 with INCOMING_SESSION_KEY := r.1 }
    if s.INCOMING_SESSION_KEY ≠ s.SESSION_KEY then
      { s with DATALEN := 0 }
    else
      { s with DATALEN := (s.PAYLOADLEN + 256 - 4) % 256 }
  else s

/-- Source: `RFM69_SessionKey::receiveBegin`. -/
def receiveBegin (s : Node) : Node :=
  let s := { s with SESSION_KEY_INCLUDED := 0 }
  let s := { s with SESSION_KEY_REQUESTED := 0 }
  baseReceiveBegin s

/-- Source: `RFM69_SessionKey::receiveDone`; the result and the state after the call. -/
def receiveDone (s : Node) : Bool × Node :=
  if s._mode = Mode.rx ∧ s.PAYLOADLEN > 0 then
    if sessionKeyEnabled s = true ∧ s.INCOMING_SESSION_KEY ≠ s.SESSION_KEY then
      (false, receiveBegin s)
    else
      (true, setMode Mode.standby s)
  else if s._mode = Mode.rx then
    (false, s)
  else
    (false, receiveBegin s)

/-- Modelled from the spec: `interruptHandler` of the base driver, which is not among
the sources, up to its call of the hook. For a received frame (length byte first) it
fetches the header, reports the wire length in `PAYLOADLEN`, the wire length minus
the 3 header bytes in `DATALEN` and the source address in `SENDERID`, and calls
`interruptHook` with the control byte, "right after the header is fetched". -/
def interruptHandler (cfg : Config) (frame : List Nat) (s : Node) : Node :=
  match frame with
  | len :: _ :: sender :: CTLbyte :: rest =>
    interruptHook cfg CTLbyte
      { s with PAYLOADLEN := len, DATALEN := (len + 256 - 3) % 256, SENDERID := sender,
               fifo := rest }
  | _ => s

/-- What the radio receives while `sendWithSession` waits: for each millisecond
since the request was sent, the frames that arrive in it, in order. -/
abbrev WaitEnv := Nat → List (List Nat)

/-- The wait loop of `sendWithSession`,
`while (millis() - sentTime < retryWaitTime && SESSION_KEY == 0);`.
`remaining` is `retryWaitTime` minus the time `elapsed`; while the loop spins
through one millisecond the interrupt handler takes the frames of that millisecond. -/
def waitForKey (cfg : Config) (env : WaitEnv) : Nat → Nat → Node → Node
  | 0, _, s => s
  | remaining + 1, elapsed, s =>
    if s.SESSION_KEY = 0 then
      waitForKey cfg env remaining (elapsed + 1)
        ((env elapsed).foldl (fun st frame => interruptHandler cfg frame st) s)
    else s

/-- Source: `RFM69_SessionKey::sendWithSession`. -/
def sendWithSession (cfg : Config) (toAddress : Nat) (buffer : List Nat) (bufferSize : Nat)
    (requestACK : Bool) (retryWaitTime : Nat) (env : WaitEnv) (s : Node) : Node :=
  let s := { s with SESSION_KEY := 0 }
  let s := sendFrame cfg toAddress [] 0 false false true false s
  let s := receiveBegin s
  let s := waitForKey cfg env retryWaitTime 0 s
  if s.SESSION_KEY = 0 then s
  else sendFrame cfg toAddress buffer bufferSize requestACK false false true s

/-- The state of `sendWithSession` at the end of its wait loop. -/
def afterWait (cfg : Config) (toAddress : Nat) (retryWaitTime : Nat) (env : WaitEnv)
    (s : Node) : Node :=
  waitForKey cfg env retryWaitTime 0
    (receiveBegin (sendFrame cfg toAddress [] 0 false false true false { s with SESSION_KEY := 0 }))

/-- What happens around a node while it runs the carrier-sense loop of `send` or
`sendACK`: a frame arrives and the receive interrupt takes it, or the loop reaches its
test of `canSend` and reads the channel as free or busy. -/
inductive CsmaEvent where
  | frame (bytes : List Nat)
  | sense (free : Bool)
  deriving DecidableEq, Repr

/-- The carrier-sense loop of `send` and `sendACK`,
`while (!canSend() && millis() - now < RF69_CSMA_LIMIT_MS) receiveDone();`.
The loop listens with interrupts on, so frames that arrive are taken by the interrupt
handler between its steps. At a test of `canSend` that fails, `receiveDone` runs and
the loop goes on; the list ends when the time limit is reached at a failing test. -/
def csmaWait (cfg : Config) : List CsmaEvent → Node → Node
  | [], s => s
  | CsmaEvent.frame bytes :: rest, s => csmaWait cfg rest (interruptHandler cfg bytes s)
  | CsmaEvent.sense free :: rest, s =>
    let r := canSend free s
    if r.1 = true then r.2 else csmaWait cfg rest (receiveDone r.2).2

/-- Source: `RFM69_SessionKey::send`; `retryWaitTime` takes its default, 40. -/
def send (cfg : Config) (toAddress : Nat) (buffer : List Nat) (bufferSize : Nat)
    (requestACK : Bool) (channel : List CsmaEvent) (env : WaitEnv) (s : Node) : Node :=
  let s := csmaWait cfg channel s
  if sessionKeyEnabled s = true then
    sendWithSession cfg toAddress buffer bufferSize requestACK 40 env s
  else
    sendFrame5 cfg toAddress buffer bufferSize requestACK false s

/-- Source: `RFM69_SessionKey::sendACK`. The sender id and the RSSI of the received
frame are saved on entry, because the carrier-sense loop may restart reception. -/
def sendACK (cfg : Config) (buffer : List Nat) (bufferSize : Nat)
    (channel : List CsmaEvent) (s : Node) : Node :=
  let sender := s.SENDERID
  let _RSSI := s.RSSI
  let s := csmaWait cfg channel s
  let s :=
    if sessionKeyEnabled s = true then
      sendFrame cfg sender buffer bufferSize false true false true s
    else
      sendFrame5 cfg sender buffer bufferSize false true s
  { s with RSSI := _RSSI }

/-- Modelled from the spec: `RFM69::initialize` of the base driver, which is not among
the sources (register-level radio configuration, out of the specification's scope): it
takes `nodeID` as the node's own address, leaves the transceiver in standby and
reports success. It has no access to the members the session-key class declares. -/
def baseInit (_freqBand nodeID _networkID : Nat) (s : Node) : Bool × Node :=
  (true, setMode Mode.standby { s with _address := nodeID })

/-- Source: `RFM69_SessionKey::initialize` (the name is reserved in Lean); the result
and the state after the call. -/
def initSession (freqBand nodeID networkID : Nat) (s : Node) : Bool × Node :=
  let s := { s with _sessionKeyEnabled := false }
  let s := { s with SESSION_KEY_INCLUDED := 0 }
  let s := { s with SESSION_KEY_REQUESTED := 0 }
  baseInit freqBand nodeID networkID s

/-! ## The wire format in the specification's words -/

/-- A frame as the specification's data model describes it. -/
structure Frame where
  destination : Nat
  source : Nat
  requestAck : Bool
  sendAck : Bool
  sessionRequested : Bool
  sessionIncluded : Bool
  key : Option Nat
  payload : List Nat
  deriving DecidableEq, Repr

/-- The frame-on-wire layout of the specification,
`[length][destination][source][control][key byte if session-included][payload...]`,
where `length` counts everything after itself. -/
def wireLayout (destination source control : Nat) (key : Option Nat) (payload : List Nat) :
    List Nat :=
  ([destination, source, control] ++ key.toList ++ payload).length ::
    ([destination, source, control] ++ key.toList ++ payload)

/-- Parsing received bytes according to the specification's wire layout and control-bit
table: a flag is set when its mask meets the control byte, the key byte is present
exactly when session-included is set, and the payload is what the length byte
leaves after the header (3 bytes, or 4 with a key). -/
def decodeFrame (cfg : Config) : List Nat → Option Frame
  | length :: destination :: source :: control :: rest =>
    if control &&& cfg.RFM69_CTL_EXT2 ≠ 0 then
      match rest with
      | key :: payload =>
        some { destination := destination, source := source,
               requestAck := decide (control &&& cfg.RFM69_CTL_REQACK ≠ 0),
               sendAck := decide (control &&& cfg.RFM69_CTL_SENDACK ≠ 0),
               sessionRequested := decide (control &&& cfg.RFM69_CTL_EXT1 ≠ 0),
               sessionIncluded := true,
               key := some key, payload := payload.take (length - 4) }
      | [] => none
    else
      some { destination := destination, source := source,
             requestAck := decide (control &&& cfg.RFM69_CTL_REQACK ≠ 0),
             sendAck := decide (control &&& cfg.RFM69_CTL_SENDACK ≠ 0),
             sessionRequested := decide (control &&& cfg.RFM69_CTL_EXT1 ≠ 0),
             sessionIncluded := false,
             key := none, payload := rest.take (length - 3) }
  | _ => none

/-! ## Auxiliary definitions for the statements -/

/-- What the code needs of distinct single-bit masks: none is zero and any two are disjoint. -/
structure Config.Disjoint (cfg : Config) : Prop where
  sendack_ne : cfg.RFM69_CTL_SENDACK ≠ 0
  reqack_ne : cfg.RFM69_CTL_REQACK ≠ 0
  ext1_ne : cfg.RFM69_CTL_EXT1 ≠ 0
  ext2_ne : cfg.RFM69_CTL_EXT2 ≠ 0
  sendack_reqack : cfg.RFM69_CTL_SENDACK &&& cfg.RFM69_CTL_REQACK = 0
  sendack_ext1 : cfg.RFM69_CTL_SENDACK &&& cfg.RFM69_CTL_EXT1 = 0
  sendack_ext2 : cfg.RFM69_CTL_SENDACK &&& cfg.RFM69_CTL_EXT2 = 0
  reqack_sendack : cfg.RFM69_CTL_REQACK &&& cfg.RFM69_CTL_SENDACK = 0
  reqack_ext1 : cfg.RFM69_CTL_REQACK &&& cfg.RFM69_CTL_EXT1 = 0
  reqack_ext2 : cfg.RFM69_CTL_REQACK &&& cfg.RFM69_CTL_EXT2 = 0
  ext1_sendack : cfg.RFM69_CTL_EXT1 &&& cfg.RFM69_CTL_SENDACK = 0
  ext1_reqack : cfg.RFM69_CTL_EXT1 &&& cfg.RFM69_CTL_REQACK = 0
  ext1_ext2 : cfg.RFM69_CTL_EXT1 &&& cfg.RFM69_CTL_EXT2 = 0
  ext2_sendack : cfg.RFM69_CTL_EXT2 &&& cfg.RFM69_CTL_SENDACK = 0
  ext2_reqack : cfg.RFM69_CTL_EXT2 &&& cfg.RFM69_CTL_REQACK = 0
  ext2_ext1 : cfg.RFM69_CTL_EXT2 &&& cfg.RFM69_CTL_EXT1 = 0

/-- The state in which `interruptHook` takes its decision: both flags extracted. -/
def withFlags (cfg : Config) (CTLbyte : Nat) (s : Node) : Node :=
  { s with SESSION_KEY_REQUESTED := CTLbyte &&& cfg.RFM69_CTL_EXT1,
           SESSION_KEY_INCLUDED := CTLbyte &&& cfg.RFM69_CTL_EXT2 }

/-- The frames listed are key deliveries sent from address `own`: length byte 4,
control byte `EXT1 | EXT2`, a key byte and no payload. -/
def KeyDeliveries (cfg : Config) (own : Nat) (ds : List (List Nat)) : Prop :=
  ∀ d ∈ ds, ∃ dst key, d = [4, dst, own, cfg.RFM69_CTL_EXT1 ||| cfg.RFM69_CTL_EXT2, key]

/-- A responder that holds key 200 and finds in its FIFO the key byte 77 followed by
the payload "PING" of a frame of wire length 8 sent by node 1. -/
def replayNode : Node :=
  { sampleNode 2 true with
    SESSION_KEY := 200, PAYLOADLEN := 8, DATALEN := 5, SENDERID := 1,
    fifo := [77, 80, 73, 78, 71] }

/-- The same frame as in `replayNode` on a node that has session support switched off
and holds key 77, as the base handler hands it to the hook (`DATALEN = PAYLOADLEN - 3`). -/
def disabledKeyedNode : Node :=
  { sampleNode 2 false with
    SESSION_KEY := 77, PAYLOADLEN := 8, DATALEN := 5, SENDERID := 1,
    fifo := [77, 80, 73, 78, 71] }

/-- A node after an accepted keyed exchange with key 77: session support enabled,
`SESSION_KEY` and `INCOMING_SESSION_KEY` both 77. -/
def usedNode : Node :=
  { sampleNode 2 true with SESSION_KEY := 77, INCOMING_SESSION_KEY := 77, SENDERID := 1 }

/-- A session-enabled node at its start-up values to which the base handler hands a
frame of wire length 3, the header alone: `PAYLOADLEN = 3`, `DATALEN = 0`, nothing
left in the FIFO. -/
def headerOnlyNode : Node :=
  { sampleNode 2 true with PAYLOADLEN := 3, DATALEN := 0, SENDERID := 1, fifo := [] }

/-- A received frame is a key request: it has a full header and its control byte has
session-requested set and session-included clear. -/
def isKeyRequest (cfg : Config) (frame : List Nat) : Bool :=
  match frame with
  | _ :: _ :: _ :: CTLbyte :: _ =>
    decide (CTLbyte &&& cfg.RFM69_CTL_EXT1 ≠ 0 ∧ CTLbyte &&& cfg.RFM69_CTL_EXT2 = 0)
  | _ => false

/-- A received frame has a full header and session-requested set in its control byte
(a key request or a key delivery). -/
def hasSessionRequested (cfg : Config) (frame : List Nat) : Bool :=
  match frame with
  | _ :: _ :: _ :: CTLbyte :: _ => decide (CTLbyte &&& cfg.RFM69_CTL_EXT1 ≠ 0)
  | _ => false

/-- The key requests among the received frames that a node answers: all of them when
session support is enabled, none when it is disabled. -/
def answered (cfg : Config) (enabled : Bool) (frames : List (List Nat)) : List (List Nat) :=
  if enabled then frames.filter (isKeyRequest cfg) else []

/-- The key deliveries a node with address `own` transmits for the listed key requests,
in order: each goes to the sender of its request (third byte of the request) and
carries the next value of the random source, as a byte. -/
def replies (cfg : Config) (own : Nat) : List (List Nat) → List Nat → List (List Nat)
  | [], _ => []
  | request :: rest, draws =>
    [4, request.getD 2 0, own, cfg.RFM69_CTL_EXT1 ||| cfg.RFM69_CTL_EXT2,
      draws.headD 0 % 256] :: replies cfg own rest draws.tail

/-- The frames the interrupt handler takes while the wait loop of `sendWithSession`
runs from the given state: those of each millisecond the loop spins through. -/
def waitHeard (cfg : Config) (env : WaitEnv) : Nat → Nat → Node → List (List Nat)
  | 0, _, _ => []
  | remaining + 1, elapsed, s =>
    if s.SESSION_KEY = 0 then
      env elapsed ++ waitHeard cfg env remaining (elapsed + 1)
        ((env elapsed).foldl (fun st frame => interruptHandler cfg frame st) s)
    else []

/-- The frames the node hears during the wait of one call of `sendWithSession`. -/
def heardInWait (cfg : Config) (toAddress : Nat) (retryWaitTime : Nat) (env : WaitEnv)
    (s : Node) : List (List Nat) :=
  waitHeard cfg env retryWaitTime 0
    (receiveBegin (sendFrame cfg toAddress [] 0 false false true false { s with SESSION_KEY := 0 }))

/-- The frames the interrupt handler takes while the carrier-sense loop runs from the
given state: those that arrive before the loop ends. -/
def csmaHeard (cfg : Config) : List CsmaEvent → Node → List (List Nat)
  | [], _ => []
  | CsmaEvent.frame bytes :: rest, s =>
    bytes :: csmaHeard cfg rest (interruptHandler cfg bytes s)
  | CsmaEvent.sense free :: rest, s =>
    if (canSend free s).1 = true then []
    else csmaHeard cfg rest (receiveDone (canSend free s).2).2

/-- The frames that arrive during a carrier-sense loop, in order. -/
def arrivals : List CsmaEvent → List (List Nat)
  | [] => []
  | CsmaEvent.frame bytes :: rest => bytes :: arrivals rest
  | CsmaEvent.sense _ :: rest => arrivals rest

/-- From state `s` to state `t` the node has taken the received `frames` and done
nothing else that transmits or draws random numbers: the transmit log has grown by
the replies to the key requests it answers, the random source has lost the values
drawn for them, and address and enable flag are as before. -/
def Tracks (cfg : Config) (s t : Node) (frames : List (List Nat)) : Prop :=
  t.sent = s.sent ++
    replies cfg s._address (answered cfg s._sessionKeyEnabled frames) s.randomSource ∧
  t.randomSource = s.randomSource.drop (answered cfg s._sessionKeyEnabled frames).length ∧
  t._address = s._address ∧
  t._sessionKeyEnabled = s._sessionKeyEnabled

/-! ## Control-byte masks -/

theorem bits_disjoint : ∀ a ∈ [1, 2, 4, 8, 16, 32, 64, 128], ∀ b ∈ [1, 2, 4, 8, 16, 32, 64, 128],
    a ≠ b → a &&& b = 0 := by
  decide

theorem bits_ne_zero : ∀ a ∈ [1, 2, 4, 8, 16, 32, 64, 128], a ≠ 0 := by
  decide

theorem Config.DistinctBits.disjoint {cfg : Config} (h : cfg.DistinctBits) : cfg.Disjoint := by
  obtain ⟨hs, hr, h1, h2, hnd⟩ := h
  simp only [List.nodup_cons, List.mem_cons, List.mem_singleton, List.not_mem_nil, not_or,
    or_false, not_false_eq_true, List.nodup_nil, and_true] at hnd
  obtain ⟨⟨hsr, hs1, hs2⟩, ⟨hr1, hr2⟩, h12⟩ := hnd
  exact
    { sendack_ne := bits_ne_zero _ hs, reqack_ne := bits_ne_zero _ hr
      ext1_ne := bits_ne_zero _ h1, ext2_ne := bits_ne_zero _ h2
      sendack_reqack := bits_disjoint _ hs _ hr hsr
      sendack_ext1 := bits_disjoint _ hs _ h1 hs1
      sendack_ext2 := bits_disjoint _ hs _ h2 hs2
      reqack_sendack := bits_disjoint _ hr _ hs (Ne.symm hsr)
      reqack_ext1 := bits_disjoint _ hr _ h1 hr1
      reqack_ext2 := bits_disjoint _ hr _ h2 hr2
      ext1_sendack := bits_disjoint _ h1 _ hs (Ne.symm hs1)
      ext1_reqack := bits_disjoint _ h1 _ hr (Ne.symm hr1)
      ext1_ext2 := bits_disjoint _ h1 _ h2 h12
      ext2_sendack := bits_disjoint _ h2 _ hs (Ne.symm hs2)
      ext2_reqack := bits_disjoint _ h2 _ hr (Ne.symm hr2)
      ext2_ext1 := bits_disjoint _ h2 _ h1 (Ne.symm h12) }

/-- Masking the control byte `sendFrame` builds with `RFM69_CTL_EXT1` gives the mask
itself when `sessionRequested` was passed, and 0 otherwise. -/
theorem ctlByte_and_ext1 {cfg : Config} (h : cfg.Disjoint) (ra sa sr si : Bool) :
    ctlByte cfg ra sa sr si &&& cfg.RFM69_CTL_EXT1 = if sr then cfg.RFM69_CTL_EXT1 else 0 := by
  cases ra <;> cases sa <;> cases sr <;> cases si <;>
    simp [ctlByte, Nat.and_distrib_right, h.sendack_ext1, h.reqack_ext1, h.ext2_ext1]

theorem ctlByte_and_ext2 {cfg : Config} (h : cfg.Disjoint) (ra sa sr si : Bool) :
    ctlByte cfg ra sa sr si &&& cfg.RFM69_CTL_EXT2 = if si then cfg.RFM69_CTL_EXT2 else 0 := by
  cases ra <;> cases sa <;> cases sr <;> cases si <;>
    simp [ctlByte, Nat.and_distrib_right, h.sendack_ext2, h.reqack_ext2, h.ext1_ext2]

theorem ctlByte_and_reqack {cfg : Config} (h : cfg.Disjoint) (ra sa sr si : Bool) :
    ctlByte cfg ra sa sr si &&& cfg.RFM69_CTL_REQACK = if ra then cfg.RFM69_CTL_REQACK else 0 := by
  cases ra <;> cases sa <;> cases sr <;> cases si <;>
    simp [ctlByte, Nat.and_distrib_right, h.sendack_reqack, h.ext1_reqack, h.ext2_reqack]

theorem ctlByte_and_sendack {cfg : Config} (h : cfg.Disjoint) (ra sa sr si : Bool) :
    ctlByte cfg ra sa sr si &&& cfg.RFM69_CTL_SENDACK = if sa then cfg.RFM69_CTL_SENDACK else 0 := by
  cases ra <;> cases sa <;> cases sr <;> cases si <;>
    simp [ctlByte, Nat.and_distrib_right, h.reqack_sendack, h.ext1_sendack, h.ext2_sendack]

theorem lor_land_left (a b : Nat) : (a ||| b) &&& a = a := by
  apply Nat.eq_of_testBit_eq
  intro i
  simp only [Nat.testBit_and, Nat.testBit_or]
  cases a.testBit i <;> cases b.testBit i <;> rfl

theorem lor_land_right (a b : Nat) : (a ||| b) &&& b = b := by
  apply Nat.eq_of_testBit_eq
  intro i
  simp only [Nat.testBit_and, Nat.testBit_or]
  cases a.testBit i <;> cases b.testBit i <;> rfl

/-! ## The branches of `interruptHook` -/

theorem interruptHook_disabled (cfg : Config) (CTLbyte : Nat) (s : Node)
    (hen : s._sessionKeyEnabled = false) :
    interruptHook cfg CTLbyte s = withFlags cfg CTLbyte s := by
  simp [interruptHook, withFlags, sessionKeyEnabled, hen]

theorem interruptHook_plain (cfg : Config) (CTLbyte : Nat) (s : Node)
    (hreq : CTLbyte &&& cfg.RFM69_CTL_EXT1 = 0) (hinc : CTLbyte &&& cfg.RFM69_CTL_EXT2 = 0) :
    interruptHook cfg CTLbyte s = withFlags cfg CTLbyte s := by
  simp [interruptHook, withFlags, sessionKeyEnabled, hreq, hinc]

theorem interruptHook_mint (cfg : Config) (CTLbyte : Nat) (s : Node)
    (hen : s._sessionKeyEnabled = true)
    (hreq : CTLbyte &&& cfg.RFM69_CTL_EXT1 ≠ 0) (hinc : CTLbyte &&& cfg.RFM69_CTL_EXT2 = 0) :
    interruptHook cfg CTLbyte s =
      { withFlags cfg CTLbyte s with
        SESSION_KEY := s.randomSource.headD 0 % 256
        randomSource := s.randomSource.tail
        _mode := Mode.standby
        DATALEN := 0
        sent := s.sent ++ [[4, s.SENDERID, s._address,
          cfg.RFM69_CTL_EXT1 ||| cfg.RFM69_CTL_EXT2, s.randomSource.headD 0 % 256]] } := by
  simp [interruptHook, withFlags, sessionKeyEnabled, hen, hreq, hinc, sendFrame, setMode, random,
    frameBytes, ctlByte]

theorem interruptHook_install (cfg : Config) (CTLbyte : Nat) (s : Node)
    (hen : s._sessionKeyEnabled = true)
    (hreq : CTLbyte &&& cfg.RFM69_CTL_EXT1 ≠ 0) (hinc : CTLbyte &&& cfg.RFM69_CTL_EXT2 ≠ 0) :
    interruptHook cfg CTLbyte s =
      { withFlags cfg CTLbyte s with
        SESSION_KEY := s.fifo.headD 0, fifo := s.fifo.tail, DATALEN := 0 } := by
  simp [interruptHook, withFlags, sessionKeyEnabled, hen, hreq, hinc, spiRead]

theorem interruptHook_keyed (cfg : Config) (CTLbyte : Nat) (s : Node)
    (hen : s._sessionKeyEnabled = true)
    (hreq : CTLbyte &&& cfg.RFM69_CTL_EXT1 = 0) (hinc : CTLbyte &&& cfg.RFM69_CTL_EXT2 ≠ 0) :
    interruptHook cfg CTLbyte s =
      { withFlags cfg CTLbyte s with
        INCOMING_SESSION_KEY := s.fifo.headD 0, fifo := s.fifo.tail,
        DATALEN := if s.fifo.headD 0 ≠ s.SESSION_KEY then 0 else (s.PAYLOADLEN + 256 - 4) % 256 } := by
  by_cases hk : s.fifo.head?.getD 0 = s.SESSION_KEY <;>
    simp [interruptHook, withFlags, sessionKeyEnabled, hen, hreq, hinc, spiRead, hk]

theorem interruptHook_flags (cfg : Config) (CTLbyte : Nat) (s : Node) :
    (interruptHook cfg CTLbyte s).SESSION_KEY_REQUESTED = CTLbyte &&& cfg.RFM69_CTL_EXT1 ∧
    (interruptHook cfg CTLbyte s).SESSION_KEY_INCLUDED = CTLbyte &&& cfg.RFM69_CTL_EXT2 := by
  unfold interruptHook
  simp only [sessionKeyEnabled, spiRead, random, sendFrame, setMode]
  split_ifs <;> simp

/-! ## Transmit path -/

theorem range_map_getD (buffer : List Nat) (n : Nat) (h : n ≤ buffer.length) :
    (List.range n).map (fun i => buffer.getD i 0) = buffer.take n := by
  apply List.ext_getElem
  · simp [h]
  · intro i h1 h2
    simp at h1 h2
    simp [List.getD_eq_getElem?_getD, List.getElem?_eq_getElem (show i < buffer.length by omega)]

/-- The transmit log after `sendFrame`: one frame more. -/
theorem sendFrame_sent (cfg : Config) (toAddress : Nat) (buffer : List Nat) (bufferSize : Nat)
    (ra sa sr si : Bool) (s : Node) :
    (sendFrame cfg toAddress buffer bufferSize ra sa sr si s).sent = s.sent ++
      [frameBytes cfg toAddress buffer (min bufferSize cfg.RF69_MAX_DATA_LEN) ra sa sr si s] := by
  have hmin : (if bufferSize > cfg.RF69_MAX_DATA_LEN then cfg.RF69_MAX_DATA_LEN else bufferSize)
      = min bufferSize cfg.RF69_MAX_DATA_LEN := by
    split_ifs with h
    · exact (Nat.min_eq_right (Nat.le_of_lt h)).symm
    · exact (Nat.min_eq_left (Nat.le_of_not_lt h)).symm
  simp only [sendFrame, setMode, hmin, frameBytes]

/-- The bytes of a frame in the layout of the specification. -/
theorem frameBytes_eq_wireLayout (cfg : Config) (toAddress : Nat) (buffer : List Nat) (m : Nat)
    (ra sa sr si : Bool) (s : Node) (hm : m ≤ buffer.length) (h256 : m + 4 < 256) :
    frameBytes cfg toAddress buffer m ra sa sr si s =
      wireLayout toAddress s._address (ctlByte cfg ra sa sr si)
        (if si then some s.SESSION_KEY else none) (buffer.take m) := by
  unfold frameBytes wireLayout
  rw [range_map_getD buffer m hm]
  cases si
  · simp [Nat.min_eq_left hm]
    omega
  · simp [Nat.min_eq_left hm]
    omega

/-- The frame `sendFrame` appends to the transmit log, byte by byte. -/
theorem sendFrame_layout (cfg : Config) (toAddress : Nat) (buffer : List Nat)
    (bufferSize : Nat) (ra sa sr si : Bool) (s : Node)
    (hsize : bufferSize ≤ buffer.length) (hmax : cfg.RF69_MAX_DATA_LEN + 4 < 256) :
    (sendFrame cfg toAddress buffer bufferSize ra sa sr si s).sent = s.sent ++
      [[if si then min bufferSize cfg.RF69_MAX_DATA_LEN + 4
          else min bufferSize cfg.RF69_MAX_DATA_LEN + 3,
        toAddress, s._address, ctlByte cfg ra sa sr si]
        ++ (if si then [s.SESSION_KEY] else [])
        ++ buffer.take (min bufferSize cfg.RF69_MAX_DATA_LEN)] := by
  have hm : min bufferSize cfg.RF69_MAX_DATA_LEN ≤ buffer.length :=
    le_trans (Nat.min_le_left _ _) hsize
  have h256 : min bufferSize cfg.RF69_MAX_DATA_LEN + 4 < 256 := by
    have := Nat.min_le_right bufferSize cfg.RF69_MAX_DATA_LEN
    omega
  rw [sendFrame_sent, frameBytes_eq_wireLayout cfg toAddress buffer _ ra sa sr si s hm h256]
  cases si
  · simp [wireLayout, Nat.min_eq_left hm]
  · simp [wireLayout, Nat.min_eq_left hm]

/-! ## What the receive interrupt leaves alone -/

theorem keyDeliveries_nil (cfg : Config) (own : Nat) : KeyDeliveries cfg own [] := by
  intro d hd
  cases hd

theorem keyDeliveries_append {cfg : Config} {own : Nat} {d1 d2 : List (List Nat)}
    (h1 : KeyDeliveries cfg own d1) (h2 : KeyDeliveries cfg own d2) :
    KeyDeliveries cfg own (d1 ++ d2) := by
  intro d hd
  rcases List.mem_append.mp hd with h | h
  · exact h1 d h
  · exact h2 d h

theorem interruptHook_frame (cfg : Config) (CTLbyte : Nat) (s : Node) :
    (interruptHook cfg CTLbyte s)._address = s._address ∧
    (interruptHook cfg CTLbyte s)._sessionKeyEnabled = s._sessionKeyEnabled ∧
    ((interruptHook cfg CTLbyte s).sent = s.sent ∨
      ∃ key, (interruptHook cfg CTLbyte s).sent = s.sent ++
        [[4, s.SENDERID, s._address, cfg.RFM69_CTL_EXT1 ||| cfg.RFM69_CTL_EXT2, key]]) := by
  by_cases hen : s._sessionKeyEnabled = true
  · by_cases hreq : CTLbyte &&& cfg.RFM69_CTL_EXT1 = 0
    · by_cases hinc : CTLbyte &&& cfg.RFM69_CTL_EXT2 = 0
      · rw [interruptHook_plain cfg CTLbyte s hreq hinc]
        exact ⟨rfl, rfl, Or.inl rfl⟩
      · rw [interruptHook_keyed cfg CTLbyte s hen hreq hinc]
        exact ⟨rfl, rfl, Or.inl rfl⟩
    · by_cases hinc : CTLbyte &&& cfg.RFM69_CTL_EXT2 = 0
      · rw [interruptHook_mint cfg CTLbyte s hen hreq hinc]
        exact ⟨rfl, rfl, Or.inr ⟨_, rfl⟩⟩
      · rw [interruptHook_install cfg CTLbyte s hen hreq hinc]
        exact ⟨rfl, rfl, Or.inl rfl⟩
  · rw [interruptHook_disabled cfg CTLbyte s (by simpa using hen)]
    exact ⟨rfl, rfl, Or.inl rfl⟩

theorem interruptHandler_frame (cfg : Config) (frame : List Nat) (s : Node) :
    ∃ ds, KeyDeliveries cfg s._address ds ∧
      (interruptHandler cfg frame s).sent = s.sent ++ ds ∧
      (interruptHandler cfg frame s)._address = s._address ∧
      (interruptHandler cfg frame s)._sessionKeyEnabled = s._sessionKeyEnabled := by
  have hnil : ∃ ds, KeyDeliveries cfg s._address ds ∧ s.sent = s.sent ++ ds ∧
      s._address = s._address ∧ s._sessionKeyEnabled = s._sessionKeyEnabled :=
    ⟨[], keyDeliveries_nil cfg _, by simp, rfl, rfl⟩
  rcases frame with _ | ⟨len, _ | ⟨dst, _ | ⟨src, _ | ⟨ctl, rest⟩⟩⟩⟩
  · exact hnil
  · exact hnil
  · exact hnil
  · exact hnil
  · obtain ⟨ha, he, hs⟩ := interruptHook_frame cfg ctl
      { s with PAYLOADLEN := len, DATALEN := (len + 256 - 3) % 256, SENDERID := src, fifo := rest }
    rcases hs with hs | ⟨key, hs⟩
    · exact ⟨[], keyDeliveries_nil cfg _, by simpa [interruptHandler] using hs, ha, he⟩
    · refine ⟨[[4, src, s._address, cfg.RFM69_CTL_EXT1 ||| cfg.RFM69_CTL_EXT2, key]], ?_, hs, ha, he⟩
      intro d hd
      exact ⟨src, key, by simpa using hd⟩

theorem interrupts_frame (cfg : Config) (frames : List (List Nat)) (s : Node) :
    ∃ ds, KeyDeliveries cfg s._address ds ∧
      (frames.foldl (fun st frame => interruptHandler cfg frame st) s).sent = s.sent ++ ds ∧
      (frames.foldl (fun st frame => interruptHandler cfg frame st) s)._address = s._address ∧
      (frames.foldl (fun st frame => interruptHandler cfg frame st) s)._sessionKeyEnabled
        = s._sessionKeyEnabled := by
  induction frames generalizing s with
  | nil => exact ⟨[], keyDeliveries_nil cfg _, by simp, rfl, rfl⟩
  | cons f fs ih =>
    obtain ⟨d1, hk1, hs1, ha1, he1⟩ := interruptHandler_frame cfg f s
    obtain ⟨d2, hk2, hs2, ha2, he2⟩ := ih (interruptHandler cfg f s)
    rw [ha1] at hk2
    refine ⟨d1 ++ d2, keyDeliveries_append hk1 hk2, ?_, ?_, ?_⟩
    · simp only [List.foldl_cons]
      rw [hs2, hs1, List.append_assoc]
    · simp only [List.foldl_cons]
      rw [ha2, ha1]
    · simp only [List.foldl_cons]
      rw [he2, he1]

theorem waitForKey_frame (cfg : Config) (env : WaitEnv) (remaining : Nat) :
    ∀ (elapsed : Nat) (s : Node), ∃ ds, KeyDeliveries cfg s._address ds ∧
      (waitForKey cfg env remaining elapsed s).sent = s.sent ++ ds ∧
      (waitForKey cfg env remaining elapsed s)._address = s._address ∧
      (waitForKey cfg env remaining elapsed s)._sessionKeyEnabled = s._sessionKeyEnabled := by
  induction remaining with
  | zero =>
    intro elapsed s
    exact ⟨[], keyDeliveries_nil cfg _, by simp [waitForKey], rfl, rfl⟩
  | succ r ih =>
    intro elapsed s
    by_cases hk : s.SESSION_KEY = 0
    · obtain ⟨d1, hk1, hs1, ha1, he1⟩ := interrupts_frame cfg (env elapsed) s
      obtain ⟨d2, hk2, hs2, ha2, he2⟩ := ih (elapsed + 1)
        ((env elapsed).foldl (fun st frame => interruptHandler cfg frame st) s)
      rw [ha1] at hk2
      refine ⟨d1 ++ d2, keyDeliveries_append hk1 hk2, ?_, ?_, ?_⟩
      · simp only [waitForKey, hk, if_true]
        rw [hs2, hs1, List.append_assoc]
      · simp only [waitForKey, hk, if_true]
        rw [ha2, ha1]
      · simp only [waitForKey, hk, if_true]
        rw [he2, he1]
    · have hw : waitForKey cfg env (r + 1) elapsed s = s := by simp [waitForKey, hk]
      rw [hw]
      exact ⟨[], keyDeliveries_nil cfg _, by simp, rfl, rfl⟩

/-- With nothing arriving the wait changes nothing. -/
theorem waitForKey_silent (cfg : Config) (env : WaitEnv) (hq : ∀ t, env t = [])
    (remaining : Nat) : ∀ (elapsed : Nat) (s : Node),
    waitForKey cfg env remaining elapsed s = s := by
  induction remaining with
  | zero => intro elapsed s; rfl
  | succ r ih =>
    intro elapsed s
    by_cases hk : s.SESSION_KEY = 0
    · simp only [waitForKey, hk, if_true, hq elapsed, List.foldl_nil]
      exact ih (elapsed + 1) s
    · simp [waitForKey, hk]

/-- Milliseconds in which nothing arrives only use up the timeout. -/
theorem waitForKey_skip (cfg : Config) (env : WaitEnv) (quiet : Nat) :
    ∀ (remaining elapsed : Nat) (s : Node), s.SESSION_KEY = 0 →
      (∀ t, t < quiet → env (elapsed + t) = []) →
      waitForKey cfg env (remaining + quiet) elapsed s
        = waitForKey cfg env remaining (elapsed + quiet) s := by
  induction quiet with
  | zero => intro remaining elapsed s _ _; rfl
  | succ q ih =>
    intro remaining elapsed s hk hq
    have h0 : env elapsed = [] := by simpa using hq 0 (Nat.succ_pos q)
    have hstep : waitForKey cfg env (remaining + (q + 1)) elapsed s
        = waitForKey cfg env (remaining + q) (elapsed + 1) s := by
      show waitForKey cfg env ((remaining + q) + 1) elapsed s = _
      simp only [waitForKey, hk, if_true, h0, List.foldl_nil]
    rw [hstep, ih remaining (elapsed + 1) s hk]
    · congr 1
      omega
    · intro t ht
      have := hq (t + 1) (by omega)
      rw [← this]
      congr 1
      omega

/-- Once a key is held the wait is over. -/
theorem waitForKey_done (cfg : Config) (env : WaitEnv) (remaining elapsed : Nat) (s : Node)
    (hk : s.SESSION_KEY ≠ 0) : waitForKey cfg env remaining elapsed s = s := by
  cases remaining with
  | zero => rfl
  | succ r => simp [waitForKey, hk]

/-! ## The handshake on the sending side -/

theorem sendWithSession_eq (cfg : Config) (toAddress : Nat) (buffer : List Nat)
    (bufferSize : Nat) (requestACK : Bool) (retryWaitTime : Nat) (env : WaitEnv) (s : Node) :
    sendWithSession cfg toAddress buffer bufferSize requestACK retryWaitTime env s =
      if (afterWait cfg toAddress retryWaitTime env s).SESSION_KEY = 0 then
        afterWait cfg toAddress retryWaitTime env s
      else
        sendFrame cfg toAddress buffer bufferSize requestACK false false true
          (afterWait cfg toAddress retryWaitTime env s) := rfl

/-- The state in which `sendWithSession` starts to wait: the request is out, no key is
held, the node listens. -/
theorem requested_state (cfg : Config) (toAddress : Nat) (s : Node) :
    (receiveBegin (sendFrame cfg toAddress [] 0 false false true false
      { s with SESSION_KEY := 0 })).sent
        = s.sent ++ [[3, toAddress, s._address, cfg.RFM69_CTL_EXT1]] ∧
    (receiveBegin (sendFrame cfg toAddress [] 0 false false true false
      { s with SESSION_KEY := 0 }))._address = s._address ∧
    (receiveBegin (sendFrame cfg toAddress [] 0 false false true false
      { s with SESSION_KEY := 0 }))._sessionKeyEnabled = s._sessionKeyEnabled ∧
    (receiveBegin (sendFrame cfg toAddress [] 0 false false true false
      { s with SESSION_KEY := 0 })).SESSION_KEY = 0 := by
  refine ⟨?_, rfl, rfl, rfl⟩
  show (sendFrame cfg toAddress [] 0 false false true false { s with SESSION_KEY := 0 }).sent = _
  rw [sendFrame_sent]
  simp [frameBytes, ctlByte]

theorem receiveDone_frame (s : Node) :
    (receiveDone s).2.sent = s.sent ∧ (receiveDone s).2._address = s._address ∧
    (receiveDone s).2._sessionKeyEnabled = s._sessionKeyEnabled ∧
    (receiveDone s).2.SESSION_KEY = s.SESSION_KEY ∧
    (receiveDone s).2.randomSource = s.randomSource := by
  unfold receiveDone
  split_ifs <;> exact ⟨rfl, rfl, rfl, rfl, rfl⟩

theorem canSend_frame (free : Bool) (s : Node) :
    (canSend free s).2.sent = s.sent ∧ (canSend free s).2._address = s._address ∧
    (canSend free s).2._sessionKeyEnabled = s._sessionKeyEnabled ∧
    (canSend free s).2.SESSION_KEY = s.SESSION_KEY ∧
    (canSend free s).2.randomSource = s.randomSource := by
  unfold canSend
  split_ifs <;> exact ⟨rfl, rfl, rfl, rfl, rfl⟩

/-! ## Received frames and the replies to them -/

theorem replies_append (cfg : Config) (own : Nat) (r1 r2 : List (List Nat)) :
    ∀ draws : List Nat, replies cfg own (r1 ++ r2) draws
      = replies cfg own r1 draws ++ replies cfg own r2 (draws.drop r1.length) := by
  induction r1 with
  | nil => intro draws; simp [replies]
  | cons f fs ih =>
    intro draws
    have h := ih draws.tail
    simp only [List.cons_append, replies, List.length_cons, List.cons.injEq, true_and]
    refine h.trans ?_
    cases draws <;> simp

theorem answered_append (cfg : Config) (enabled : Bool) (f1 f2 : List (List Nat)) :
    answered cfg enabled (f1 ++ f2) = answered cfg enabled f1 ++ answered cfg enabled f2 := by
  cases enabled <;> simp [answered]

theorem tracks_same (cfg : Config) (s t : Node) (h1 : t.sent = s.sent)
    (h2 : t.randomSource = s.randomSource) (h3 : t._address = s._address)
    (h4 : t._sessionKeyEnabled = s._sessionKeyEnabled) : Tracks cfg s t [] := by
  refine ⟨?_, ?_, h3, h4⟩
  · cases s._sessionKeyEnabled <;> simp [answered, replies, h1]
  · cases s._sessionKeyEnabled <;> simp [answered, h2]

theorem tracks_trans {cfg : Config} {s t u : Node} {f1 f2 : List (List Nat)}
    (h1 : Tracks cfg s t f1) (h2 : Tracks cfg t u f2) : Tracks cfg s u (f1 ++ f2) := by
  obtain ⟨a1, a2, a3, a4⟩ := h1
  obtain ⟨b1, b2, b3, b4⟩ := h2
  rw [a3, a4, a1, a2] at b1
  rw [a4, a2] at b2
  refine ⟨?_, ?_, b3.trans a3, b4.trans a4⟩
  · rw [b1, answered_append, replies_append, List.append_assoc]
  · rw [b2, answered_append, List.length_append, List.drop_drop]

/-- One frame taken by the interrupt handler. -/
theorem handler_tracks (cfg : Config) (frame : List Nat) (s : Node) :
    Tracks cfg s (interruptHandler cfg frame s) [frame] := by
  rcases frame with _ | ⟨len, _ | ⟨dst, _ | ⟨src, _ | ⟨ctl, rest⟩⟩⟩⟩
  · cases he : s._sessionKeyEnabled <;>
      simp [Tracks, answered, isKeyRequest, replies, interruptHandler, he]
  · cases he : s._sessionKeyEnabled <;>
      simp [Tracks, answered, isKeyRequest, replies, interruptHandler, he]
  · cases he : s._sessionKeyEnabled <;>
      simp [Tracks, answered, isKeyRequest, replies, interruptHandler, he]
  · cases he : s._sessionKeyEnabled <;>
      simp [Tracks, answered, isKeyRequest, replies, interruptHandler, he]
  · simp only [interruptHandler]
    by_cases he : s._sessionKeyEnabled = true
    · by_cases hreq : ctl &&& cfg.RFM69_CTL_EXT1 = 0
      · by_cases hinc : ctl &&& cfg.RFM69_CTL_EXT2 = 0
        · rw [interruptHook_plain cfg ctl _ hreq hinc]
          simp [Tracks, answered, isKeyRequest, replies, withFlags, he, hreq]
        · have hx := interruptHook_keyed cfg ctl
            { s with PAYLOADLEN := len, DATALEN := (len + 256 - 3) % 256, SENDERID := src,
                     fifo := rest } he hreq hinc
          rw [hx]
          simp [Tracks, answered, isKeyRequest, replies, withFlags, he, hreq]
      · by_cases hinc : ctl &&& cfg.RFM69_CTL_EXT2 = 0
        · have hx := interruptHook_mint cfg ctl
            { s with PAYLOADLEN := len, DATALEN := (len + 256 - 3) % 256, SENDERID := src,
                     fifo := rest } he hreq hinc
          rw [hx]
          simp [Tracks, answered, isKeyRequest, replies, withFlags, he, hreq, hinc]
        · have hx := interruptHook_install cfg ctl
            { s with PAYLOADLEN := len, DATALEN := (len + 256 - 3) % 256, SENDERID := src,
                     fifo := rest } he hreq hinc
          rw [hx]
          simp [Tracks, answered, isKeyRequest, replies, withFlags, he, hreq, hinc]
    · have he' : s._sessionKeyEnabled = false := by simpa using he
      have hx := interruptHook_disabled cfg ctl
        { s with PAYLOADLEN := len, DATALEN := (len + 256 - 3) % 256, SENDERID := src,
                 fifo := rest } he'
      rw [hx]
      simp [Tracks, answered, replies, withFlags, he']

/-- The carrier-sense loop answers the key requests it hears. -/
theorem csmaWait_tracks (cfg : Config) (channel : List CsmaEvent) : ∀ s : Node,
    Tracks cfg s (csmaWait cfg channel s) (csmaHeard cfg channel s) := by
  induction channel with
  | nil => intro s; exact tracks_same cfg s s rfl rfl rfl rfl
  | cons e rest ih =>
    intro s
    cases e with
    | frame bytes =>
      have h := tracks_trans (handler_tracks cfg bytes s) (ih (interruptHandler cfg bytes s))
      simpa [csmaWait, csmaHeard] using h
    | sense free =>
      obtain ⟨c1, c2, c3, _, c5⟩ := canSend_frame free s
      by_cases hc : (canSend free s).1 = true
      · simp only [csmaWait, csmaHeard, hc, if_true]
        exact tracks_same cfg s _ c1 c5 c2 c3
      · obtain ⟨d1, d2, d3, _, d5⟩ := receiveDone_frame (canSend free s).2
        have h0 : Tracks cfg s (receiveDone (canSend free s).2).2 [] :=
          tracks_same cfg s _ (d1.trans c1) (d5.trans c5) (d2.trans c2) (d3.trans c3)
        have h := tracks_trans h0 (ih (receiveDone (canSend free s).2).2)
        simpa [csmaWait, csmaHeard, hc] using h

/-- What the carrier-sense loop hears is what arrives, in order, up to the point at
which the loop ends. -/
theorem csmaHeard_arrives (cfg : Config) (channel : List CsmaEvent) : ∀ s : Node,
    ∃ later, csmaHeard cfg channel s ++ later = arrivals channel := by
  induction channel with
  | nil => intro s; exact ⟨[], rfl⟩
  | cons e rest ih =>
    intro s
    cases e with
    | frame bytes =>
      obtain ⟨later, hl⟩ := ih (interruptHandler cfg bytes s)
      exact ⟨later, by simp [csmaHeard, arrivals, hl]⟩
    | sense free =>
      by_cases hc : (canSend free s).1 = true
      · exact ⟨arrivals rest, by simp [csmaHeard, arrivals, hc]⟩
      · obtain ⟨later, hl⟩ := ih (receiveDone (canSend free s).2).2
        exact ⟨later, by simp [csmaHeard, arrivals, hc, hl]⟩

/-- A frame without session-requested, or any frame at a node with session support
off, leaves `SESSION_KEY` as it is. -/
theorem handler_keeps_key (cfg : Config) (frame : List Nat) (s : Node)
    (h : s._sessionKeyEnabled = false ∨ hasSessionRequested cfg frame = false) :
    (interruptHandler cfg frame s).SESSION_KEY = s.SESSION_KEY := by
  rcases frame with _ | ⟨len, _ | ⟨dst, _ | ⟨src, _ | ⟨ctl, rest⟩⟩⟩⟩
  · rfl
  · rfl
  · rfl
  · rfl
  · simp only [interruptHandler]
    by_cases he : s._sessionKeyEnabled = true
    · have hreq : ctl &&& cfg.RFM69_CTL_EXT1 = 0 := by
        rcases h with h | h
        · rw [he] at h; cases h
        · simpa [hasSessionRequested] using h
      by_cases hinc : ctl &&& cfg.RFM69_CTL_EXT2 = 0
      · rw [interruptHook_plain cfg ctl _ hreq hinc]
        rfl
      · have hx := interruptHook_keyed cfg ctl
          { s with PAYLOADLEN := len, DATALEN := (len + 256 - 3) % 256, SENDERID := src,
                   fifo := rest } he hreq hinc
        rw [hx]
        rfl
    · have he' : s._sessionKeyEnabled = false := by simpa using he
      have hx := interruptHook_disabled cfg ctl
        { s with PAYLOADLEN := len, DATALEN := (len + 256 - 3) % 256, SENDERID := src,
                 fifo := rest } he'
      rw [hx]
      rfl

/-- The carrier-sense loop keeps `SESSION_KEY` when session support is off or no frame
with session-requested set is heard. -/
theorem csmaWait_keeps_key (cfg : Config) (channel : List CsmaEvent) : ∀ s : Node,
    (s._sessionKeyEnabled = false ∨
      ∀ f ∈ csmaHeard cfg channel s, hasSessionRequested cfg f = false) →
    (csmaWait cfg channel s).SESSION_KEY = s.SESSION_KEY := by
  induction channel with
  | nil => intro s _; rfl
  | cons e rest ih =>
    intro s h
    cases e with
    | frame bytes =>
      have hstep := handler_keeps_key cfg bytes s (by
        rcases h with h | h
        · exact Or.inl h
        · exact Or.inr (h bytes (by simp [csmaHeard])))
      have hen := (handler_tracks cfg bytes s).2.2.2
      have hrest := ih (interruptHandler cfg bytes s) (by
        rcases h with h | h
        · exact Or.inl (hen.trans h)
        · exact Or.inr (fun f hf => h f (by simp [csmaHeard, hf])))
      simp only [csmaWait]
      rw [hrest, hstep]
    | sense free =>
      obtain ⟨_, _, c3, c4, _⟩ := canSend_frame free s
      by_cases hc : (canSend free s).1 = true
      · simp only [csmaWait, hc, if_true]
        exact c4
      · obtain ⟨_, _, d3, d4, _⟩ := receiveDone_frame (canSend free s).2
        have hrest := ih (receiveDone (canSend free s).2).2 (by
          rcases h with h | h
          · exact Or.inl ((d3.trans c3).trans h)
          · exact Or.inr (fun f hf => h f (by simpa [csmaHeard, hc] using hf)))
        simp only [csmaWait, hc]
        rw [if_neg (by simp), hrest, d4, c4]

/-! ## The three frames of a handshake at the node that receives them -/

/-- A key request arrives at a session-enabled node. -/
theorem handler_request (cfg : Config) (d : cfg.Disjoint) (b : Node) (dst src : Nat)
    (hb : b._sessionKeyEnabled = true) :
    (interruptHandler cfg [3, dst, src, cfg.RFM69_CTL_EXT1] b).sent = b.sent ++
      [[4, src, b._address, cfg.RFM69_CTL_EXT1 ||| cfg.RFM69_CTL_EXT2, (random 256 b).1]] ∧
    (interruptHandler cfg [3, dst, src, cfg.RFM69_CTL_EXT1] b).SESSION_KEY = (random 256 b).1 ∧
    (interruptHandler cfg [3, dst, src, cfg.RFM69_CTL_EXT1] b)._sessionKeyEnabled = true := by
  have e1 : cfg.RFM69_CTL_EXT1 &&& cfg.RFM69_CTL_EXT1 ≠ 0 := by
    rw [Nat.and_self]; exact d.ext1_ne
  have hx := interruptHook_mint cfg cfg.RFM69_CTL_EXT1
    { b with PAYLOADLEN := 3, DATALEN := (3 + 256 - 3) % 256, SENDERID := src, fifo := [] }
    hb e1 d.ext1_ext2
  simp only [interruptHandler]
  rw [hx]
  exact ⟨rfl, rfl, hb⟩

/-- A key delivery arrives at a session-enabled node. -/
theorem handler_delivery (cfg : Config) (d : cfg.Disjoint) (s : Node) (dst src k : Nat)
    (hs : s._sessionKeyEnabled = true) :
    (interruptHandler cfg
      [4, dst, src, cfg.RFM69_CTL_EXT1 ||| cfg.RFM69_CTL_EXT2, k] s).SESSION_KEY = k ∧
    (interruptHandler cfg
      [4, dst, src, cfg.RFM69_CTL_EXT1 ||| cfg.RFM69_CTL_EXT2, k] s).sent = s.sent ∧
    (interruptHandler cfg
      [4, dst, src, cfg.RFM69_CTL_EXT1 ||| cfg.RFM69_CTL_EXT2, k] s)._address = s._address := by
  have e1 : (cfg.RFM69_CTL_EXT1 ||| cfg.RFM69_CTL_EXT2) &&& cfg.RFM69_CTL_EXT1 ≠ 0 := by
    rw [lor_land_left]; exact d.ext1_ne
  have e2 : (cfg.RFM69_CTL_EXT1 ||| cfg.RFM69_CTL_EXT2) &&& cfg.RFM69_CTL_EXT2 ≠ 0 := by
    rw [lor_land_right]; exact d.ext2_ne
  have hx := interruptHook_install cfg (cfg.RFM69_CTL_EXT1 ||| cfg.RFM69_CTL_EXT2)
    { s with PAYLOADLEN := 4, DATALEN := (4 + 256 - 3) % 256, SENDERID := src, fifo := [k] }
    hs e1 e2
  simp only [interruptHandler]
  rw [hx]
  exact ⟨rfl, rfl, rfl⟩

/-- A payload frame keyed with the key the node holds arrives at a session-enabled node. -/
theorem handler_keyed (cfg : Config) (d : cfg.Disjoint) (s : Node) (dst src : Nat)
    (requestACK : Bool) (P : List Nat) (hs : s._sessionKeyEnabled = true)
    (hP : P.length + 4 < 256) :
    (interruptHandler cfg ([P.length + 4, dst, src, ctlByte cfg requestACK false false true,
      s.SESSION_KEY] ++ P) s).DATALEN = P.length ∧
    (interruptHandler cfg ([P.length + 4, dst, src, ctlByte cfg requestACK false false true,
      s.SESSION_KEY] ++ P) s).fifo = P ∧
    (receiveDone (setMode Mode.rx (interruptHandler cfg ([P.length + 4, dst, src,
      ctlByte cfg requestACK false false true, s.SESSION_KEY] ++ P) s))).1 = true := by
  have e1 : ctlByte cfg requestACK false false true &&& cfg.RFM69_CTL_EXT1 = 0 := by
    rw [ctlByte_and_ext1 d]; rfl
  have e2 : ctlByte cfg requestACK false false true &&& cfg.RFM69_CTL_EXT2 ≠ 0 := by
    rw [ctlByte_and_ext2 d]; exact d.ext2_ne
  have hx := interruptHook_keyed cfg (ctlByte cfg requestACK false false true)
    { s with PAYLOADLEN := P.length + 4, DATALEN := (P.length + 4 + 256 - 3) % 256,
             SENDERID := src, fifo := s.SESSION_KEY :: P } hs e1 e2
  simp only [List.cons_append, List.nil_append, interruptHandler]
  rw [hx]
  refine ⟨?_, rfl, ?_⟩
  · simp
    omega
  · simp [receiveDone, setMode, withFlags, sessionKeyEnabled, hs]

/-! ## Receive path -/

/-- C1 (replay rejection): on a session-enabled node, a frame whose control byte has
session-included set and session-requested clear and whose key byte `k` differs from
the current key makes `interruptHook` store `k` in `INCOMING_SESSION_KEY`, force
`DATALEN` to 0 and keep `SESSION_KEY`; the following `receiveDone`, in mode RX with
`PAYLOADLEN > 0`, returns false. -/
theorem replay_rejected (cfg : Config) (s : Node) (CTLbyte k : Nat) (payload : List Nat)
    (hen : s._sessionKeyEnabled = true)
    (hinc : CTLbyte &&& cfg.RFM69_CTL_EXT2 ≠ 0) (hreq : CTLbyte &&& cfg.RFM69_CTL_EXT1 = 0)
    (hfifo : s.fifo = k :: payload) (hk : k ≠ s.SESSION_KEY) (hlen : 0 < s.PAYLOADLEN) :
    (interruptHook cfg CTLbyte s).INCOMING_SESSION_KEY = k ∧
    (interruptHook cfg CTLbyte s).DATALEN = 0 ∧
    (interruptHook cfg CTLbyte s).SESSION_KEY = s.SESSION_KEY ∧
    (interruptHook cfg CTLbyte s).PAYLOADLEN = s.PAYLOADLEN ∧
    (receiveDone (setMode Mode.rx (interruptHook cfg CTLbyte s))).1 = false := by
  rw [interruptHook_keyed cfg CTLbyte s hen hreq hinc]
  have hlen' : s.PAYLOADLEN ≠ 0 := Nat.pos_iff_ne_zero.mp hlen
  simp [hfifo, hk, withFlags, receiveDone, setMode, sessionKeyEnabled, hen, hlen, hlen']

/-- Scenario 3 of the specification: the holder's key is 200 and the frame carries key 77. -/
theorem replay_rejected_witness :
    (interruptHook sampleConfig 0x10 replayNode).INCOMING_SESSION_KEY = 77 ∧
    (interruptHook sampleConfig 0x10 replayNode).DATALEN = 0 ∧
    (interruptHook sampleConfig 0x10 replayNode).SESSION_KEY = 200 ∧
    (interruptHook sampleConfig 0x10 replayNode).PAYLOADLEN = 8 ∧
    (receiveDone (setMode Mode.rx (interruptHook sampleConfig 0x10 replayNode))).1 = false :=
  replay_rejected sampleConfig replayNode 0x10 77 [80, 73, 78, 71] (by decide) (by decide)
    (by decide) rfl (by decide) (by decide)

/-- C3 (key agreement): when a session-enabled responder takes a key request and its
random source returns `k`, it emits one key-delivery frame; a session-enabled
requester whose interrupt handler takes that frame ends with `SESSION_KEY = k` and
`DATALEN = 0` and transmits nothing. More generally any frame with both session bits
set and key byte `k`, whatever payload follows, leaves `SESSION_KEY = k`,
`DATALEN = 0` and the transmit log as it was. -/
theorem key_agreement (cfg : Config) (resp req : Node) (CTLbyte k : Nat)
    (h1 : cfg.RFM69_CTL_EXT1 ≠ 0) (h2 : cfg.RFM69_CTL_EXT2 ≠ 0)
    (hresp : resp._sessionKeyEnabled = true) (hreq : req._sessionKeyEnabled = true)
    (hc1 : CTLbyte &&& cfg.RFM69_CTL_EXT1 ≠ 0) (hc2 : CTLbyte &&& cfg.RFM69_CTL_EXT2 = 0)
    (hk : (random 256 resp).1 = k) :
    (∃ delivery,
      (interruptHook cfg CTLbyte resp).sent = resp.sent ++ [delivery] ∧
      (interruptHook cfg CTLbyte resp).SESSION_KEY = k ∧
      (interruptHandler cfg delivery req).SESSION_KEY = k ∧
      (interruptHandler cfg delivery req).DATALEN = 0 ∧
      (interruptHandler cfg delivery req).sent = req.sent) ∧
    (∀ (c : Nat) (payload : List Nat),
      c &&& cfg.RFM69_CTL_EXT1 ≠ 0 → c &&& cfg.RFM69_CTL_EXT2 ≠ 0 →
      (interruptHook cfg c { req with fifo := k :: payload }).SESSION_KEY = k ∧
      (interruptHook cfg c { req with fifo := k :: payload }).DATALEN = 0 ∧
      (interruptHook cfg c { req with fifo := k :: payload }).sent = req.sent) := by
  have hk' : resp.randomSource.head?.getD 0 % 256 = k := by
    rw [← hk]; simp [random]
  constructor
  · refine ⟨[4, resp.SENDERID, resp._address, cfg.RFM69_CTL_EXT1 ||| cfg.RFM69_CTL_EXT2, k], ?_⟩
    rw [interruptHook_mint cfg CTLbyte resp hresp hc1 hc2]
    have e1 : (cfg.RFM69_CTL_EXT1 ||| cfg.RFM69_CTL_EXT2) &&& cfg.RFM69_CTL_EXT1 ≠ 0 := by
      rw [lor_land_left]; exact h1
    have e2 : (cfg.RFM69_CTL_EXT1 ||| cfg.RFM69_CTL_EXT2) &&& cfg.RFM69_CTL_EXT2 ≠ 0 := by
      rw [lor_land_right]; exact h2
    have hx := interruptHook_install cfg (cfg.RFM69_CTL_EXT1 ||| cfg.RFM69_CTL_EXT2)
      { req with PAYLOADLEN := 4, DATALEN := (4 + 256 - 3) % 256, SENDERID := resp._address,
                 fifo := [k] } hreq e1 e2
    simp only [interruptHandler]
    rw [hx]
    simp [hk', withFlags]
  · intro c payload hb1 hb2
    have hx := interruptHook_install cfg c { req with fifo := k :: payload } hreq hb1 hb2
    rw [hx]
    simp [withFlags]

/-- The responder of the specification's scenario 2 draws key 77 for requester 1. -/
theorem key_agreement_witness :
    (∃ delivery,
      (interruptHook sampleConfig 0x20 { sampleNode 2 true with randomSource := [77] }).sent
        = [] ++ [delivery] ∧
      (interruptHook sampleConfig 0x20
        { sampleNode 2 true with randomSource := [77] }).SESSION_KEY = 77 ∧
      (interruptHandler sampleConfig delivery (sampleNode 1 true)).SESSION_KEY = 77 ∧
      (interruptHandler sampleConfig delivery (sampleNode 1 true)).DATALEN = 0 ∧
      (interruptHandler sampleConfig delivery (sampleNode 1 true)).sent = []) ∧
    (∀ (c : Nat) (payload : List Nat),
      c &&& 0x20 ≠ 0 → c &&& 0x10 ≠ 0 →
      (interruptHook sampleConfig c
        { sampleNode 1 true with fifo := 77 :: payload }).SESSION_KEY = 77 ∧
      (interruptHook sampleConfig c { sampleNode 1 true with fifo := 77 :: payload }).DATALEN = 0 ∧
      (interruptHook sampleConfig c { sampleNode 1 true with fifo := 77 :: payload }).sent = []) :=
  key_agreement sampleConfig { sampleNode 2 true with randomSource := [77] } (sampleNode 1 true)
    0x20 77 (by decide) (by decide) rfl rfl (by decide) (by decide) rfl

/-- C5 (mint and reply): on a session-enabled node, for a control byte with
session-requested set and session-included clear, if `random(256)` returns `r` then
`interruptHook` sets `SESSION_KEY = r`, appends exactly one frame to the transmit log,
namely length byte 4, destination `SENDERID`, own address, control byte `EXT1 | EXT2`
and key byte `r` with no payload byte, and sets `DATALEN = 0`. With distinct
single-bit masks that control byte has both session bits set and both ack bits clear. -/
theorem mint_and_reply (cfg : Config) (s : Node) (CTLbyte r : Nat)
    (hen : s._sessionKeyEnabled = true)
    (hreq : CTLbyte &&& cfg.RFM69_CTL_EXT1 ≠ 0) (hinc : CTLbyte &&& cfg.RFM69_CTL_EXT2 = 0)
    (hr : (random 256 s).1 = r) :
    (interruptHook cfg CTLbyte s).SESSION_KEY = r ∧
    (interruptHook cfg CTLbyte s).sent = s.sent ++
      [[4, s.SENDERID, s._address, cfg.RFM69_CTL_EXT1 ||| cfg.RFM69_CTL_EXT2, r]] ∧
    (interruptHook cfg CTLbyte s).DATALEN = 0 ∧
    (cfg.DistinctBits →
      (cfg.RFM69_CTL_EXT1 ||| cfg.RFM69_CTL_EXT2) &&& cfg.RFM69_CTL_EXT1 ≠ 0 ∧
      (cfg.RFM69_CTL_EXT1 ||| cfg.RFM69_CTL_EXT2) &&& cfg.RFM69_CTL_EXT2 ≠ 0 ∧
      (cfg.RFM69_CTL_EXT1 ||| cfg.RFM69_CTL_EXT2) &&& cfg.RFM69_CTL_REQACK = 0 ∧
      (cfg.RFM69_CTL_EXT1 ||| cfg.RFM69_CTL_EXT2) &&& cfg.RFM69_CTL_SENDACK = 0) := by
  have hr' : s.randomSource.head?.getD 0 % 256 = r := by
    rw [← hr]; simp [random]
  rw [interruptHook_mint cfg CTLbyte s hen hreq hinc]
  refine ⟨by simp [hr'], by simp [hr', withFlags], rfl, ?_⟩
  intro hd
  have d := hd.disjoint
  refine ⟨?_, ?_, ?_, ?_⟩
  · rw [lor_land_left]; exact d.ext1_ne
  · rw [lor_land_right]; exact d.ext2_ne
  · simp [Nat.and_distrib_right, d.ext1_reqack, d.ext2_reqack]
  · simp [Nat.and_distrib_right, d.ext1_sendack, d.ext2_sendack]

/-- Node 2 takes a key request of node 1 and draws 77. -/
theorem mint_and_reply_witness :
    (interruptHook sampleConfig 0x20
      { sampleNode 2 true with SENDERID := 1, randomSource := [77] }).SESSION_KEY = 77 ∧
    (interruptHook sampleConfig 0x20
      { sampleNode 2 true with SENDERID := 1, randomSource := [77] }).sent
        = [] ++ [[4, 1, 2, 0x20 ||| 0x10, 77]] ∧
    (interruptHook sampleConfig 0x20
      { sampleNode 2 true with SENDERID := 1, randomSource := [77] }).DATALEN = 0 ∧
    (sampleConfig.DistinctBits →
      (0x20 ||| 0x10) &&& 0x20 ≠ 0 ∧ (0x20 ||| 0x10) &&& 0x10 ≠ 0 ∧
      (0x20 ||| 0x10) &&& 0x40 = 0 ∧ (0x20 ||| 0x10) &&& 0x80 = 0) :=
  mint_and_reply sampleConfig { sampleNode 2 true with SENDERID := 1, randomSource := [77] }
    0x20 77 rfl (by decide) (by decide) rfl

/-- C6, as stated, fails with session support disabled: for a frame with
session-included set, session-requested clear and key byte 77 of wire length 8,
`interruptHook` neither stores 77 in `INCOMING_SESSION_KEY` nor sets `DATALEN` to
`PAYLOADLEN - 4 = 4`; it leaves `INCOMING_SESSION_KEY = 0`, `DATALEN = 5` and the key
byte in the FIFO. -/
theorem keyed_row_disabled_counterexample :
    disabledKeyedNode._sessionKeyEnabled = false ∧
    disabledKeyedNode.fifo = 77 :: [80, 73, 78, 71] ∧
    disabledKeyedNode.PAYLOADLEN = 8 ∧
    0x10 &&& sampleConfig.RFM69_CTL_EXT2 ≠ 0 ∧ 0x10 &&& sampleConfig.RFM69_CTL_EXT1 = 0 ∧
    (interruptHook sampleConfig 0x10 disabledKeyedNode).INCOMING_SESSION_KEY ≠ 77 ∧
    (interruptHook sampleConfig 0x10 disabledKeyedNode).DATALEN ≠ 8 - 4 ∧
    (interruptHook sampleConfig 0x10 disabledKeyedNode).INCOMING_SESSION_KEY = 0 ∧
    (interruptHook sampleConfig 0x10 disabledKeyedNode).DATALEN = 5 ∧
    (interruptHook sampleConfig 0x10 disabledKeyedNode).fifo = [77, 80, 73, 78, 71] := by
  decide

/-- C6, amended (keyed-payload row of the receive gate): for a frame with
session-included set and session-requested clear and key byte `k`. On a
session-enabled node `interruptHook` reads `k` into `INCOMING_SESSION_KEY`; if
`k` differs from `SESSION_KEY` it sets `DATALEN = 0`, and if the keys match it sets
`DATALEN` to `PAYLOADLEN - 4` in 8-bit arithmetic, which is the wire length minus 4
for every wire length of at least 4. On a node with session support disabled it
reads no key byte and leaves `INCOMING_SESSION_KEY` and `DATALEN` as they were. -/
theorem keyed_row (cfg : Config) (s : Node) (CTLbyte k : Nat) (payload : List Nat)
    (hinc : CTLbyte &&& cfg.RFM69_CTL_EXT2 ≠ 0) (hreq : CTLbyte &&& cfg.RFM69_CTL_EXT1 = 0)
    (hfifo : s.fifo = k :: payload) :
    (s._sessionKeyEnabled = true →
      (interruptHook cfg CTLbyte s).INCOMING_SESSION_KEY = k ∧
      (interruptHook cfg CTLbyte s).fifo = payload ∧
      (k ≠ s.SESSION_KEY → (interruptHook cfg CTLbyte s).DATALEN = 0) ∧
      (k = s.SESSION_KEY →
        (interruptHook cfg CTLbyte s).DATALEN = (s.PAYLOADLEN + 256 - 4) % 256 ∧
        (4 ≤ s.PAYLOADLEN → s.PAYLOADLEN < 256 →
          (interruptHook cfg CTLbyte s).DATALEN = s.PAYLOADLEN - 4))) ∧
    (s._sessionKeyEnabled = false →
      (interruptHook cfg CTLbyte s).INCOMING_SESSION_KEY = s.INCOMING_SESSION_KEY ∧
      (interruptHook cfg CTLbyte s).DATALEN = s.DATALEN ∧
      (interruptHook cfg CTLbyte s).fifo = s.fifo) := by
  constructor
  · intro hen
    rw [interruptHook_keyed cfg CTLbyte s hen hreq hinc]
    refine ⟨by simp [hfifo], by simp [hfifo], ?_, ?_⟩
    · intro hk
      simp [hfifo, hk]
    · intro hk
      have hd : (if s.fifo.headD 0 ≠ s.SESSION_KEY then 0 else (s.PAYLOADLEN + 256 - 4) % 256)
          = (s.PAYLOADLEN + 256 - 4) % 256 := by
        simp [hfifo, hk]
      refine ⟨hd, ?_⟩
      intro h4 h256
      show (if s.fifo.headD 0 ≠ s.SESSION_KEY then 0 else (s.PAYLOADLEN + 256 - 4) % 256)
          = s.PAYLOADLEN - 4
      rw [hd]
      omega
  · intro hen
    rw [interruptHook_disabled cfg CTLbyte s hen]
    simp [withFlags]

/-- A matching key on a session-enabled node: wire length 8, key 77, payload "PING". -/
theorem keyed_row_witness :
    ({ replayNode with SESSION_KEY := 77 }._sessionKeyEnabled = true →
      (interruptHook sampleConfig 0x10 { replayNode with SESSION_KEY := 77 }).INCOMING_SESSION_KEY
        = 77 ∧
      (interruptHook sampleConfig 0x10 { replayNode with SESSION_KEY := 77 }).fifo
        = [80, 73, 78, 71] ∧
      (77 ≠ 77 → (interruptHook sampleConfig 0x10 { replayNode with SESSION_KEY := 77 }).DATALEN
        = 0) ∧
      (77 = 77 →
        (interruptHook sampleConfig 0x10 { replayNode with SESSION_KEY := 77 }).DATALEN
          = (8 + 256 - 4) % 256 ∧
        (4 ≤ 8 → 8 < 256 →
          (interruptHook sampleConfig 0x10 { replayNode with SESSION_KEY := 77 }).DATALEN
            = 8 - 4))) ∧
    ({ replayNode with SESSION_KEY := 77 }._sessionKeyEnabled = false →
      (interruptHook sampleConfig 0x10 { replayNode with SESSION_KEY := 77 }).INCOMING_SESSION_KEY
        = 0 ∧
      (interruptHook sampleConfig 0x10 { replayNode with SESSION_KEY := 77 }).DATALEN = 5 ∧
      (interruptHook sampleConfig 0x10 { replayNode with SESSION_KEY := 77 }).fifo
        = [77, 80, 73, 78, 71]) :=
  keyed_row sampleConfig { replayNode with SESSION_KEY := 77 } 0x10 77 [80, 73, 78, 71]
    (by decide) (by decide) rfl

/-- C8 (wire layout and length field): the bytes `sendFrame` writes to the FIFO after
the FIFO-write address byte are
`[length][destination][own address][control][SESSION_KEY, only if sessionIncluded]`
followed by the first `m = min(bufferSize, RF69_MAX_DATA_LEN)` bytes of the buffer, and
the length byte is the number of bytes after it: `m + 3` without a key, `m + 4` with one. -/
theorem sendFrame_wire_layout (cfg : Config) (toAddress : Nat) (buffer : List Nat)
    (bufferSize : Nat) (ra sa sr si : Bool) (s : Node)
    (hsize : bufferSize ≤ buffer.length) (hmax : cfg.RF69_MAX_DATA_LEN + 4 < 256) :
    (sendFrame cfg toAddress buffer bufferSize ra sa sr si s).sent = s.sent ++
      [[if si then min bufferSize cfg.RF69_MAX_DATA_LEN + 4
          else min bufferSize cfg.RF69_MAX_DATA_LEN + 3,
        toAddress, s._address, ctlByte cfg ra sa sr si]
        ++ (if si then [s.SESSION_KEY] else [])
        ++ buffer.take (min bufferSize cfg.RF69_MAX_DATA_LEN)] ∧
    (sendFrame cfg toAddress buffer bufferSize ra sa sr si s).sent = s.sent ++
      [wireLayout toAddress s._address (ctlByte cfg ra sa sr si)
        (if si then some s.SESSION_KEY else none)
        (buffer.take (min bufferSize cfg.RF69_MAX_DATA_LEN))] ∧
    (buffer.take (min bufferSize cfg.RF69_MAX_DATA_LEN)).length
      = min bufferSize cfg.RF69_MAX_DATA_LEN := by
  have hm : min bufferSize cfg.RF69_MAX_DATA_LEN ≤ buffer.length :=
    le_trans (Nat.min_le_left _ _) hsize
  have h256 : min bufferSize cfg.RF69_MAX_DATA_LEN + 4 < 256 := by
    have := Nat.min_le_right bufferSize cfg.RF69_MAX_DATA_LEN
    omega
  refine ⟨sendFrame_layout cfg toAddress buffer bufferSize ra sa sr si s hsize hmax, ?_, ?_⟩
  · rw [sendFrame_sent, frameBytes_eq_wireLayout cfg toAddress buffer _ ra sa sr si s hm h256]
  · simp [Nat.min_eq_left hm]

/-- A keyed "PING" from node 1, holding key 77, to node 2. -/
theorem sendFrame_wire_layout_witness :
    (sendFrame sampleConfig 2 [80, 73, 78, 71] 4 false false false true
      { sampleNode 1 true with SESSION_KEY := 77 }).sent = [[8, 2, 1, 0x10, 77, 80, 73, 78, 71]] :=
  (sendFrame_wire_layout sampleConfig 2 [80, 73, 78, 71] 4 false false false true
    { sampleNode 1 true with SESSION_KEY := 77 } (by decide) (by decide)).1

/-- C9 (encode/decode round trip): with distinct single-bit masks, parsing the frame
`sendFrame` emits according to the wire layout recovers the destination, the source,
the four flags, the presence and value of the key, and the payload bytes; and on any
receiver the masks of `interruptHook` leave `SESSION_KEY_REQUESTED` non-zero exactly
when `sessionRequested` was passed and `SESSION_KEY_INCLUDED` non-zero exactly when
`sessionIncluded` was passed. -/
theorem encode_decode_roundtrip (cfg : Config) (toAddress : Nat) (buffer : List Nat)
    (bufferSize : Nat) (ra sa sr si : Bool) (s rcv : Node)
    (hbits : cfg.DistinctBits) (hsize : bufferSize ≤ buffer.length)
    (hmax : cfg.RF69_MAX_DATA_LEN + 4 < 256) :
    ∃ frame,
      (sendFrame cfg toAddress buffer bufferSize ra sa sr si s).sent = s.sent ++ [frame] ∧
      decodeFrame cfg frame = some
        { destination := toAddress, source := s._address,
          requestAck := ra, sendAck := sa, sessionRequested := sr, sessionIncluded := si,
          key := if si then some s.SESSION_KEY else none,
          payload := buffer.take (min bufferSize cfg.RF69_MAX_DATA_LEN) } ∧
      ((interruptHandler cfg frame rcv).SESSION_KEY_REQUESTED ≠ 0 ↔ sr = true) ∧
      ((interruptHandler cfg frame rcv).SESSION_KEY_INCLUDED ≠ 0 ↔ si = true) := by
  have d := hbits.disjoint
  have hm : min bufferSize cfg.RF69_MAX_DATA_LEN ≤ buffer.length :=
    le_trans (Nat.min_le_left _ _) hsize
  have h256 : min bufferSize cfg.RF69_MAX_DATA_LEN + 4 < 256 := by
    have := Nat.min_le_right bufferSize cfg.RF69_MAX_DATA_LEN
    omega
  refine ⟨_, sendFrame_sent cfg toAddress buffer bufferSize ra sa sr si s, ?_, ?_, ?_⟩
  · rw [frameBytes_eq_wireLayout cfg toAddress buffer _ ra sa sr si s hm h256]
    have e1 := ctlByte_and_ext1 d ra sa sr si
    have e2 := ctlByte_and_ext2 d ra sa sr si
    have e3 := ctlByte_and_reqack d ra sa sr si
    have e4 := ctlByte_and_sendack d ra sa sr si
    cases si <;> cases ra <;> cases sa <;> cases sr <;>
      simp [wireLayout, decodeFrame, e1, e2, e3, e4, d.ext1_ne, d.ext2_ne, d.reqack_ne,
        d.sendack_ne, Nat.min_eq_left hm] at e1 e2 e3 e4 ⊢
  · simp only [frameBytes, List.cons_append, List.nil_append, interruptHandler]
    rw [(interruptHook_flags cfg _ _).1, ctlByte_and_ext1 d]
    cases sr <;> simp [d.ext1_ne]
  · simp only [frameBytes, List.cons_append, List.nil_append, interruptHandler]
    rw [(interruptHook_flags cfg _ _).2, ctlByte_and_ext2 d]
    cases si <;> simp [d.ext2_ne]

/-- An acknowledged keyed "PING" from node 1, holding key 77, to node 2, decoded, and
taken by a session-enabled receiver that holds key 200. -/
theorem encode_decode_roundtrip_witness :
    ∃ frame,
      (sendFrame sampleConfig 2 [80, 73, 78, 71] 4 true false false true
        { sampleNode 1 true with SESSION_KEY := 77 }).sent = [] ++ [frame] ∧
      decodeFrame sampleConfig frame = some
        { destination := 2, source := 1,
          requestAck := true, sendAck := false, sessionRequested := false,
          sessionIncluded := true, key := some 77, payload := [80, 73, 78, 71] } ∧
      ((interruptHandler sampleConfig frame
        { sampleNode 2 true with SESSION_KEY := 200 }).SESSION_KEY_REQUESTED ≠ 0 ↔ false = true) ∧
      ((interruptHandler sampleConfig frame
        { sampleNode 2 true with SESSION_KEY := 200 }).SESSION_KEY_INCLUDED ≠ 0 ↔ true = true) :=
  encode_decode_roundtrip sampleConfig 2 [80, 73, 78, 71] 4 true false false true
    { sampleNode 1 true with SESSION_KEY := 77 } { sampleNode 2 true with SESSION_KEY := 200 }
    (by decide) (by decide) (by decide)

/-! ## Sending -/

/-- Node 1 sends "PING" to node 2 and hears, in the first millisecond of its wait, a
key request of node 9 and, in the second, an unkeyed frame: it answers node 9 with the
key it draws, 77, and then sends the payload with that key. -/
theorem sendWithSession_transmissions_example :
    heardInWait sampleConfig 2 40
      (fun t => if t = 0 then [[3, 1, 9, 0x20]] else if t = 1 then [[3, 1, 9, 0]] else [])
      { sampleNode 1 true with randomSource := [77] } = [[3, 1, 9, 0x20]] ∧
    replies sampleConfig 1 (answered sampleConfig true [[3, 1, 9, 0x20]]) [77]
      = [[4, 9, 1, 0x30, 77]] := by
  decide

/-- C10 (session disabled, end to end): with session support off on sender and
receiver, `send` of a payload `P` of at most `RF69_MAX_DATA_LEN` bytes, whatever
arrives during its carrier-sense loop, transmits exactly one frame, `[n + 3, target, own address, control] ++ P`, with no key byte and
both session bits clear in the control byte; when the receiver takes that frame,
`interruptHook` leaves `DATALEN = n` and the payload `P` next in the FIFO, and
`receiveDone` in mode RX returns true. If an acknowledgement is requested, the
request-ack mask must not overlap the session masks. -/
theorem session_disabled_end_to_end (cfg : Config) (target : Nat) (P : List Nat)
    (requestACK : Bool) (channel : List CsmaEvent) (env : WaitEnv) (a b : Node)
    (hmax : cfg.RF69_MAX_DATA_LEN + 4 < 256) (hn : P.length ≤ cfg.RF69_MAX_DATA_LEN)
    (ha : a._sessionKeyEnabled = false) (hb : b._sessionKeyEnabled = false)
    (hack : requestACK = true →
      cfg.RFM69_CTL_REQACK &&& cfg.RFM69_CTL_EXT1 = 0 ∧
      cfg.RFM69_CTL_REQACK &&& cfg.RFM69_CTL_EXT2 = 0) :
    (send cfg target P P.length requestACK channel env a).sent = a.sent ++
      [[P.length + 3, target, a._address, ctlByte cfg requestACK false false false] ++ P] ∧
    ctlByte cfg requestACK false false false &&& cfg.RFM69_CTL_EXT1 = 0 ∧
    ctlByte cfg requestACK false false false &&& cfg.RFM69_CTL_EXT2 = 0 ∧
    (interruptHandler cfg
      ([P.length + 3, target, a._address, ctlByte cfg requestACK false false false] ++ P)
      b).DATALEN = P.length ∧
    (interruptHandler cfg
      ([P.length + 3, target, a._address, ctlByte cfg requestACK false false false] ++ P)
      b).fifo = P ∧
    (receiveDone (setMode Mode.rx (interruptHandler cfg
      ([P.length + 3, target, a._address, ctlByte cfg requestACK false false false] ++ P)
      b))).1 = true := by
  obtain ⟨c1, _, c2, c3⟩ := csmaWait_tracks cfg channel a
  rw [ha] at c1
  have c1' : (csmaWait cfg channel a).sent = a.sent := by
    simpa [answered, replies] using c1
  have hlayout := sendFrame_layout cfg target P P.length requestACK false false false
    (csmaWait cfg channel a) (le_refl _) hmax
  rw [Nat.min_eq_left hn, List.take_length, c1', c2] at hlayout
  have hsend : send cfg target P P.length requestACK channel env a
      = sendFrame cfg target P P.length requestACK false false false
          (csmaWait cfg channel a) := by
    simp [send, sessionKeyEnabled, c3, ha, sendFrame5]
  have hx := interruptHook_disabled cfg (ctlByte cfg requestACK false false false)
    { b with PAYLOADLEN := P.length + 3, DATALEN := (P.length + 3 + 256 - 3) % 256,
             SENDERID := a._address, fifo := P } hb
  have hdl : (P.length + 3 + 256 - 3) % 256 = P.length := by omega
  refine ⟨by rw [hsend]; simpa using hlayout, ?_, ?_, ?_, ?_, ?_⟩
  · cases requestACK
    · simp [ctlByte]
    · simpa [ctlByte] using (hack rfl).1
  · cases requestACK
    · simp [ctlByte]
    · simpa [ctlByte] using (hack rfl).2
  · simp only [List.cons_append, List.nil_append, interruptHandler]
    rw [hx]
    exact hdl
  · simp only [List.cons_append, List.nil_append, interruptHandler]
    rw [hx]
    rfl
  · simp only [List.cons_append, List.nil_append, interruptHandler]
    rw [hx]
    simp [receiveDone, setMode, withFlags, sessionKeyEnabled, hb]

/-- Scenario 1 of the specification: "PING" from node 1 to node 2, both with session
support off; during the sender's carrier-sense loop the channel is busy once and a key
request of node 9 arrives, which the sender does not answer. -/
theorem session_disabled_end_to_end_witness :
    (send sampleConfig 2 [80, 73, 78, 71] 4 false
      [CsmaEvent.sense false, CsmaEvent.frame [3, 1, 9, 0x20], CsmaEvent.sense true]
      (fun _ => []) (sampleNode 1 false)).sent = [[7, 2, 1, 0, 80, 73, 78, 71]] ∧
    (0 : Nat) &&& 0x20 = 0 ∧ (0 : Nat) &&& 0x10 = 0 ∧
    (interruptHandler sampleConfig [7, 2, 1, 0, 80, 73, 78, 71] (sampleNode 2 false)).DATALEN
      = 4 ∧
    (interruptHandler sampleConfig [7, 2, 1, 0, 80, 73, 78, 71] (sampleNode 2 false)).fifo
      = [80, 73, 78, 71] ∧
    (receiveDone (setMode Mode.rx (interruptHandler sampleConfig [7, 2, 1, 0, 80, 73, 78, 71]
      (sampleNode 2 false)))).1 = true :=
  session_disabled_end_to_end sampleConfig 2 [80, 73, 78, 71] false
    [CsmaEvent.sense false, CsmaEvent.frame [3, 1, 9, 0x20], CsmaEvent.sense true]
    (fun _ => []) (sampleNode 1 false) (sampleNode 2 false) (by decide) (by decide) rfl rfl
    (by intro h; cases h)

/-- C2 (happy-path handshake): requester `a` and responder `b` both have session
support enabled, the responder's random source returns a non-zero `k`, and the key
delivery the responder emits for the requester's request reaches the requester before
the timeout, nothing else arriving before it. Then `sendWithSession` leaves the
requester with `SESSION_KEY = k` and makes it transmit the request and exactly one
payload frame, with key byte `k` and payload `P`; on the responder that payload frame
leaves `DATALEN = n` with `P` next in the FIFO, and `receiveDone` in mode RX returns true. -/
theorem happy_path_handshake (cfg : Config) (a b : Node) (P : List Nat) (requestACK : Bool)
    (k retryWaitTime arrival : Nat) (env : WaitEnv) (delivery : List Nat)
    (hbits : cfg.DistinctBits) (hmax : cfg.RF69_MAX_DATA_LEN + 4 < 256)
    (hn : P.length ≤ cfg.RF69_MAX_DATA_LEN)
    (ha : a._sessionKeyEnabled = true) (hb : b._sessionKeyEnabled = true)
    (hk : (random 256 b).1 = k) (hk0 : k ≠ 0)
    (hresp : (interruptHandler cfg [3, b._address, a._address, cfg.RFM69_CTL_EXT1] b).sent
      = b.sent ++ [delivery])
    (harr : arrival < retryWaitTime) (hquiet : ∀ t, t < arrival → env t = [])
    (hdel : env arrival = [delivery]) :
    (sendWithSession cfg b._address P P.length requestACK retryWaitTime env a).SESSION_KEY = k ∧
    (sendWithSession cfg b._address P P.length requestACK retryWaitTime env a).sent = a.sent ++
      [[3, b._address, a._address, cfg.RFM69_CTL_EXT1],
       [P.length + 4, b._address, a._address, ctlByte cfg requestACK false false true, k] ++ P] ∧
    (interruptHandler cfg [3, b._address, a._address, cfg.RFM69_CTL_EXT1] b).SESSION_KEY = k ∧
    (interruptHandler cfg
      ([P.length + 4, b._address, a._address, ctlByte cfg requestACK false false true, k] ++ P)
      (interruptHandler cfg [3, b._address, a._address, cfg.RFM69_CTL_EXT1] b)).DATALEN
        = P.length ∧
    (interruptHandler cfg
      ([P.length + 4, b._address, a._address, ctlByte cfg requestACK false false true, k] ++ P)
      (interruptHandler cfg [3, b._address, a._address, cfg.RFM69_CTL_EXT1] b)).fifo = P ∧
    (receiveDone (setMode Mode.rx (interruptHandler cfg
      ([P.length + 4, b._address, a._address, ctlByte cfg requestACK false false true, k] ++ P)
      (interruptHandler cfg [3, b._address, a._address, cfg.RFM69_CTL_EXT1] b)))).1 = true := by
  have d := hbits.disjoint
  -- the responder mints `k` and answers
  obtain ⟨r1, r2, r3⟩ := handler_request cfg d b b._address a._address hb
  rw [hk] at r1 r2
  have hdelivery : delivery
      = [4, a._address, b._address, cfg.RFM69_CTL_EXT1 ||| cfg.RFM69_CTL_EXT2, k] := by
    have h := hresp.symm.trans r1
    simpa using h
  -- the requester waits until the delivery arrives
  obtain ⟨q1, q2, q3, q4⟩ := requested_state cfg b._address a
  obtain ⟨p1, p2, p3⟩ := handler_delivery cfg d
    (receiveBegin (sendFrame cfg b._address [] 0 false false true false
      { a with SESSION_KEY := 0 })) a._address b._address k (q3.trans ha)
  have hwait : afterWait cfg b._address retryWaitTime env a = interruptHandler cfg delivery
      (receiveBegin (sendFrame cfg b._address [] 0 false false true false
        { a with SESSION_KEY := 0 })) := by
    unfold afterWait
    obtain ⟨r, hr⟩ : ∃ r, retryWaitTime = (r + 1) + arrival :=
      ⟨retryWaitTime - arrival - 1, by omega⟩
    rw [hr, waitForKey_skip cfg env arrival (r + 1) 0 _ q4
      (by intro t ht; rw [Nat.zero_add]; exact hquiet t ht)]
    simp only [waitForKey, q4, if_true, Nat.zero_add, hdel, List.foldl_cons, List.foldl_nil]
    apply waitForKey_done
    rw [hdelivery, p1]
    exact hk0
  have hkey : (afterWait cfg b._address retryWaitTime env a).SESSION_KEY = k := by
    rw [hwait, hdelivery, p1]
  have hsent : (afterWait cfg b._address retryWaitTime env a).sent
      = a.sent ++ [[3, b._address, a._address, cfg.RFM69_CTL_EXT1]] := by
    rw [hwait, hdelivery, p2, q1]
  have haddr : (afterWait cfg b._address retryWaitTime env a)._address = a._address := by
    rw [hwait, hdelivery, p3, q2]
  have hlayout := sendFrame_layout cfg b._address P P.length requestACK false false true
    (afterWait cfg b._address retryWaitTime env a) (le_refl _) hmax
  rw [Nat.min_eq_left hn, List.take_length, hkey, hsent, haddr] at hlayout
  have hP : P.length + 4 < 256 := by omega
  obtain ⟨k1, k2, k3⟩ := handler_keyed cfg d
    (interruptHandler cfg [3, b._address, a._address, cfg.RFM69_CTL_EXT1] b)
    b._address a._address requestACK P r3 hP
  rw [r2] at k1 k2 k3
  refine ⟨?_, ?_, r2, k1, k2, k3⟩
  · rw [sendWithSession_eq, if_neg (by rw [hkey]; exact hk0)]
    exact hkey
  · rw [sendWithSession_eq, if_neg (by rw [hkey]; exact hk0), hlayout]
    simp

/-- Scenario 2 of the specification: node 1 sends "PING" to node 2 with timeout 40,
node 2 mints 77, and the delivery reaches node 1 in the third millisecond of its wait. -/
theorem happy_path_handshake_witness :
    (sendWithSession sampleConfig 2 [80, 73, 78, 71] 4 false 40
      (fun t => if t = 2 then [[4, 1, 2, 0x30, 77]] else []) (sampleNode 1 true)).SESSION_KEY
        = 77 ∧
    (sendWithSession sampleConfig 2 [80, 73, 78, 71] 4 false 40
      (fun t => if t = 2 then [[4, 1, 2, 0x30, 77]] else []) (sampleNode 1 true)).sent =
      [[3, 2, 1, 0x20], [8, 2, 1, 0x10, 77, 80, 73, 78, 71]] ∧
    (interruptHandler sampleConfig [3, 2, 1, 0x20]
      { sampleNode 2 true with randomSource := [77] }).SESSION_KEY = 77 ∧
    (interruptHandler sampleConfig [8, 2, 1, 0x10, 77, 80, 73, 78, 71]
      (interruptHandler sampleConfig [3, 2, 1, 0x20]
        { sampleNode 2 true with randomSource := [77] })).DATALEN = 4 ∧
    (interruptHandler sampleConfig [8, 2, 1, 0x10, 77, 80, 73, 78, 71]
      (interruptHandler sampleConfig [3, 2, 1, 0x20]
        { sampleNode 2 true with randomSource := [77] })).fifo = [80, 73, 78, 71] ∧
    (receiveDone (setMode Mode.rx (interruptHandler sampleConfig
      [8, 2, 1, 0x10, 77, 80, 73, 78, 71]
      (interruptHandler sampleConfig [3, 2, 1, 0x20]
        { sampleNode 2 true with randomSource := [77] })))).1 = true :=
  happy_path_handshake sampleConfig (sampleNode 1 true)
    { sampleNode 2 true with randomSource := [77] } [80, 73, 78, 71] false 77 40 2
    (fun t => if t = 2 then [[4, 1, 2, 0x30, 77]] else []) [4, 1, 2, 0x30, 77]
    (by decide) (by decide) (by decide) rfl rfl rfl (by decide) (by decide) (by decide)
    (by intro t ht; interval_cases t <;> rfl) rfl

/-! ## Keyed frames at the receiver, in general -/

/-- A frame with session-included set and session-requested clear that carries the key
the session-enabled receiver holds. -/
theorem handler_keyed_match (cfg : Config) (s : Node) (len dst src ctl : Nat) (P : List Nat)
    (hs : s._sessionKeyEnabled = true)
    (e1 : ctl &&& cfg.RFM69_CTL_EXT1 = 0) (e2 : ctl &&& cfg.RFM69_CTL_EXT2 ≠ 0) :
    interruptHandler cfg (len :: dst :: src :: ctl :: s.SESSION_KEY :: P) s =
      { withFlags cfg ctl s with
        PAYLOADLEN := len, SENDERID := src, INCOMING_SESSION_KEY := s.SESSION_KEY, fifo := P,
        DATALEN := (len + 256 - 4) % 256 } := by
  have hx := interruptHook_keyed cfg ctl
    { s with PAYLOADLEN := len, DATALEN := (len + 256 - 3) % 256, SENDERID := src,
             fifo := s.SESSION_KEY :: P } hs e1 e2
  simp only [interruptHandler]
  rw [hx]
  simp [withFlags]

/-- C11 (maximum-length keyed frame): with `RF69_MAX_DATA_LEN = 61`, for a buffer of at
least 61 bytes sent with `sessionIncluded`, `sendFrame` emits the length byte
`RF69_MAX_DATA_LEN + 4 = 65`, which is the sum itself and not a wrapped value, followed
by destination, own address, control byte, key and the first 61 bytes of the buffer;
the frame with its length byte is 66 bytes long; and a session-enabled receiver that
holds the same key reports `DATALEN = 61` for it (the frame being a payload frame,
session-requested clear). -/
theorem max_length_keyed_frame (cfg : Config) (toAddress : Nat) (buffer : List Nat)
    (bufferSize : Nat) (ra sa sr : Bool) (s rcv : Node)
    (hbits : cfg.DistinctBits) (h61 : cfg.RF69_MAX_DATA_LEN = 61)
    (hn : cfg.RF69_MAX_DATA_LEN ≤ bufferSize) (hsize : bufferSize ≤ buffer.length)
    (hrcv : rcv._sessionKeyEnabled = true) (hkey : rcv.SESSION_KEY = s.SESSION_KEY) :
    (sendFrame cfg toAddress buffer bufferSize ra sa sr true s).sent = s.sent ++
      [[cfg.RF69_MAX_DATA_LEN + 4, toAddress, s._address, ctlByte cfg ra sa sr true,
        s.SESSION_KEY] ++ buffer.take 61] ∧
    cfg.RF69_MAX_DATA_LEN + 4 = 65 ∧ (cfg.RF69_MAX_DATA_LEN + 4) % 256 = 65 ∧
    ([cfg.RF69_MAX_DATA_LEN + 4, toAddress, s._address, ctlByte cfg ra sa sr true,
        s.SESSION_KEY] ++ buffer.take 61).length = 66 ∧
    (sr = false →
      (interruptHandler cfg
        ([cfg.RF69_MAX_DATA_LEN + 4, toAddress, s._address, ctlByte cfg ra sa sr true,
          s.SESSION_KEY] ++ buffer.take 61) rcv).DATALEN = 61 ∧
      (interruptHandler cfg
        ([cfg.RF69_MAX_DATA_LEN + 4, toAddress, s._address, ctlByte cfg ra sa sr true,
          s.SESSION_KEY] ++ buffer.take 61) rcv).DATALEN ≤ cfg.RF69_MAX_DATA_LEN) := by
  have d := hbits.disjoint
  have hlayout := sendFrame_layout cfg toAddress buffer bufferSize ra sa sr true s hsize
    (by omega)
  rw [Nat.min_eq_right hn] at hlayout
  have hlen : 61 ≤ buffer.length := by omega
  refine ⟨?_, by omega, by omega, ?_, ?_⟩
  · rw [hlayout, h61]
    simp
  · simp [Nat.min_eq_left hlen]
  · intro hsr
    subst hsr
    have e1 : ctlByte cfg ra sa false true &&& cfg.RFM69_CTL_EXT1 = 0 := by
      rw [ctlByte_and_ext1 d]; rfl
    have e2 : ctlByte cfg ra sa false true &&& cfg.RFM69_CTL_EXT2 ≠ 0 := by
      rw [ctlByte_and_ext2 d]; exact d.ext2_ne
    have hx := handler_keyed_match cfg rcv (cfg.RF69_MAX_DATA_LEN + 4) toAddress s._address
      (ctlByte cfg ra sa false true) (buffer.take 61) hrcv e1 e2
    rw [hkey] at hx
    simp only [List.cons_append, List.nil_append]
    rw [hx, h61]
    exact ⟨rfl, le_refl _⟩

/-- A buffer of 70 bytes, all 7, sent keyed with 77 from node 1 to node 2, which holds
the same key. -/
theorem max_length_keyed_frame_witness :
    ((sendFrame sampleConfig 2 (List.replicate 70 7) 70 false false false true
      { sampleNode 1 true with SESSION_KEY := 77 }).sent
        = [[65, 2, 1, 0x10, 77] ++ List.replicate 61 7]) ∧
    ((interruptHandler sampleConfig ([65, 2, 1, 0x10, 77] ++ List.replicate 61 7)
      { sampleNode 2 true with SESSION_KEY := 77 }).DATALEN = 61) :=
  have h := max_length_keyed_frame sampleConfig 2 (List.replicate 70 7) 70 false false false
    { sampleNode 1 true with SESSION_KEY := 77 } { sampleNode 2 true with SESSION_KEY := 77 }
    (by decide) rfl (by decide) (by decide) rfl rfl
  ⟨h.1, (h.2.2.2.2 rfl).1⟩

/-! ## The frames of the handshake -/

/-- C12 (shape of the two handshake frames): with distinct single-bit masks. The first
frame `sendWithSession` transmits is `[3, target, own address, EXT1]`: length byte 3, no
key byte, no payload byte, and a control byte that is exactly `EXT1`, so
session-requested is set and session-included, request-ack and send-ack are clear; it
is the first frame of the call. When `SESSION_KEY` is still 0 at the end of the wait,
`sendWithSession` transmits no second frame. Otherwise it transmits one more frame, to
the same target, whose control byte has session-included set, session-requested and
send-ack clear, and request-ack set exactly when the caller passed `requestACK`, and
whose key byte is the non-zero `SESSION_KEY` held at the end of the wait. -/
theorem handshake_frame_shapes (cfg : Config) (toAddress : Nat) (buffer : List Nat)
    (bufferSize : Nat) (requestACK : Bool) (retryWaitTime : Nat) (env : WaitEnv) (s : Node)
    (hbits : cfg.DistinctBits) :
    (sendFrame cfg toAddress [] 0 false false true false { s with SESSION_KEY := 0 }).sent
      = s.sent ++ [[3, toAddress, s._address, cfg.RFM69_CTL_EXT1]] ∧
    (cfg.RFM69_CTL_EXT1 &&& cfg.RFM69_CTL_EXT1 ≠ 0 ∧
      cfg.RFM69_CTL_EXT1 &&& cfg.RFM69_CTL_EXT2 = 0 ∧
      cfg.RFM69_CTL_EXT1 &&& cfg.RFM69_CTL_REQACK = 0 ∧
      cfg.RFM69_CTL_EXT1 &&& cfg.RFM69_CTL_SENDACK = 0) ∧
    (∃ later,
      (sendWithSession cfg toAddress buffer bufferSize requestACK retryWaitTime env s).sent
        = s.sent ++ [3, toAddress, s._address, cfg.RFM69_CTL_EXT1] :: later) ∧
    ((afterWait cfg toAddress retryWaitTime env s).SESSION_KEY = 0 →
      (sendWithSession cfg toAddress buffer bufferSize requestACK retryWaitTime env s).sent
        = (afterWait cfg toAddress retryWaitTime env s).sent) ∧
    ((afterWait cfg toAddress retryWaitTime env s).SESSION_KEY ≠ 0 →
      ∃ len ctl key payload,
        (sendWithSession cfg toAddress buffer bufferSize requestACK retryWaitTime env s).sent
          = (afterWait cfg toAddress retryWaitTime env s).sent ++
            [[len, toAddress, s._address, ctl, key] ++ payload] ∧
        ctl &&& cfg.RFM69_CTL_EXT2 ≠ 0 ∧ ctl &&& cfg.RFM69_CTL_EXT1 = 0 ∧
        ctl &&& cfg.RFM69_CTL_SENDACK = 0 ∧
        (ctl &&& cfg.RFM69_CTL_REQACK ≠ 0 ↔ requestACK = true) ∧
        key = (afterWait cfg toAddress retryWaitTime env s).SESSION_KEY ∧ key ≠ 0) := by
  have d := hbits.disjoint
  obtain ⟨hsent, haddr, _, _⟩ := requested_state cfg toAddress s
  obtain ⟨ds, _, hws, hwa, _⟩ := waitForKey_frame cfg env retryWaitTime 0
    (receiveBegin (sendFrame cfg toAddress [] 0 false false true false
      { s with SESSION_KEY := 0 }))
  rw [haddr] at hwa
  rw [hsent] at hws
  have hws' : (afterWait cfg toAddress retryWaitTime env s).sent
      = s.sent ++ [[3, toAddress, s._address, cfg.RFM69_CTL_EXT1]] ++ ds := hws
  have hwa' : (afterWait cfg toAddress retryWaitTime env s)._address = s._address := hwa
  refine ⟨hsent, ⟨?_, d.ext1_ext2, d.ext1_reqack, d.ext1_sendack⟩, ?_, ?_, ?_⟩
  · rw [Nat.and_self]
    exact d.ext1_ne
  · rw [sendWithSession_eq]
    by_cases hk : (afterWait cfg toAddress retryWaitTime env s).SESSION_KEY = 0
    · rw [if_pos hk, hws']
      exact ⟨ds, by simp⟩
    · rw [if_neg hk, sendFrame_sent, hws']
      exact ⟨ds ++ [frameBytes cfg toAddress buffer (min bufferSize cfg.RF69_MAX_DATA_LEN)
        requestACK false false true (afterWait cfg toAddress retryWaitTime env s)], by simp⟩
  · intro hk
    rw [sendWithSession_eq, if_pos hk]
  · intro hk
    refine ⟨(min bufferSize cfg.RF69_MAX_DATA_LEN + 4) % 256,
      ctlByte cfg requestACK false false true,
      (afterWait cfg toAddress retryWaitTime env s).SESSION_KEY,
      (List.range (min bufferSize cfg.RF69_MAX_DATA_LEN)).map (fun i => buffer.getD i 0),
      ?_, ?_, ?_, ?_, ?_, rfl, hk⟩
    · rw [sendWithSession_eq, if_neg hk, sendFrame_sent]
      simp [frameBytes, hwa']
    · rw [ctlByte_and_ext2 d]
      exact d.ext2_ne
    · rw [ctlByte_and_ext1 d]
      rfl
    · rw [ctlByte_and_sendack d]
      rfl
    · rw [ctlByte_and_reqack d]
      cases requestACK
      · simp
      · simpa using d.reqack_ne

/-- The handshake of the specification's scenario 2, with an acknowledgement requested. -/
theorem handshake_frame_shapes_witness :
    (sendFrame sampleConfig 2 [] 0 false false true false
      { sampleNode 1 true with SESSION_KEY := 0 }).sent = [] ++ [[3, 2, 1, 0x20]] ∧
    ∃ len ctl key payload,
      (sendWithSession sampleConfig 2 [80, 73, 78, 71] 4 true 40
        (fun t => if t = 2 then [[4, 1, 2, 0x30, 77]] else []) (sampleNode 1 true)).sent
          = [[3, 2, 1, 0x20]] ++ [[len, 2, 1, ctl, key] ++ payload] ∧
      ctl &&& 0x10 ≠ 0 ∧ ctl &&& 0x20 = 0 ∧ ctl &&& 0x80 = 0 ∧
      (ctl &&& 0x40 ≠ 0 ↔ true = true) ∧ key = 77 ∧ key ≠ 0 :=
  have h := handshake_frame_shapes sampleConfig 2 [80, 73, 78, 71] 4 true 40
    (fun t => if t = 2 then [[4, 1, 2, 0x30, 77]] else []) (sampleNode 1 true) (by decide)
  ⟨h.1, h.2.2.2.2 (by decide)⟩

/-! ## Initialization -/

/-- C13, as stated, fails for a node that holds keys from an earlier exchange:
`initialize` leaves `SESSION_KEY = 77` and `INCOMING_SESSION_KEY = 77` in place. -/
theorem init_keeps_keys_counterexample :
    usedNode.SESSION_KEY = 77 ∧ usedNode.INCOMING_SESSION_KEY = 77 ∧
    (initSession 91 2 100 usedNode).2.SESSION_KEY ≠ 0 ∧
    (initSession 91 2 100 usedNode).2.INCOMING_SESSION_KEY ≠ 0 ∧
    (initSession 91 2 100 usedNode).2.SESSION_KEY = 77 ∧
    (initSession 91 2 100 usedNode).2.INCOMING_SESSION_KEY = 77 := by
  decide

/-- C13, amended (initialization): for every prior state, after `initialize` session
support is disabled and both session flags are 0, while `SESSION_KEY` and
`INCOMING_SESSION_KEY` keep the values they had; they are 0 afterwards when they
were 0 before, as on a freshly started node. -/
theorem init_resets_flags (freqBand nodeID networkID : Nat) (s : Node) :
    (initSession freqBand nodeID networkID s).2._sessionKeyEnabled = false ∧
    (initSession freqBand nodeID networkID s).2.SESSION_KEY_REQUESTED = 0 ∧
    (initSession freqBand nodeID networkID s).2.SESSION_KEY_INCLUDED = 0 ∧
    (initSession freqBand nodeID networkID s).2.SESSION_KEY = s.SESSION_KEY ∧
    (initSession freqBand nodeID networkID s).2.INCOMING_SESSION_KEY = s.INCOMING_SESSION_KEY ∧
    (s.SESSION_KEY = 0 ∧ s.INCOMING_SESSION_KEY = 0 →
      (initSession freqBand nodeID networkID s).2.SESSION_KEY = 0 ∧
      (initSession freqBand nodeID networkID s).2.INCOMING_SESSION_KEY = 0) := by
  refine ⟨rfl, rfl, rfl, rfl, rfl, ?_⟩
  intro h
  exact ⟨h.1, h.2⟩

/-! ## Reported payload length -/

/-- C15 fails on the code: a session-enabled node at its start-up values (`SESSION_KEY`
0) takes a frame of wire length 3 whose control byte has session-included set. The
base handler reports `DATALEN = PAYLOADLEN - 3 = 0`; the hook reads the key position
of the exhausted FIFO as 0, finds the keys equal and stores `PAYLOADLEN - 4`, which
wraps to 255 in 8 bits: `DATALEN` grows from 0 to 255. -/
theorem datalen_wraps_for_header_only_frame :
    headerOnlyNode._sessionKeyEnabled = true ∧
    headerOnlyNode.PAYLOADLEN = 3 ∧
    headerOnlyNode.DATALEN = headerOnlyNode.PAYLOADLEN - 3 ∧
    (interruptHook sampleConfig 0x10 headerOnlyNode).DATALEN = 255 ∧
    ¬ ((interruptHook sampleConfig 0x10 headerOnlyNode).DATALEN
        ≤ headerOnlyNode.PAYLOADLEN - 3) ∧
    (interruptHandler sampleConfig [3, 2, 1, 0x10] (sampleNode 2 true)).DATALEN = 255 := by
  decide

/-! ## Frames that session support does not expect -/

/-- A frame with both session bits set at a session-enabled node. -/
theorem handler_install (cfg : Config) (s : Node) (len dst src ctl k : Nat) (rest : List Nat)
    (hs : s._sessionKeyEnabled = true)
    (e1 : ctl &&& cfg.RFM69_CTL_EXT1 ≠ 0) (e2 : ctl &&& cfg.RFM69_CTL_EXT2 ≠ 0) :
    interruptHandler cfg (len :: dst :: src :: ctl :: k :: rest) s =
      { withFlags cfg ctl s with
        PAYLOADLEN := len, SENDERID := src, SESSION_KEY := k, fifo := rest, DATALEN := 0 } := by
  have hx := interruptHook_install cfg ctl
    { s with PAYLOADLEN := len, DATALEN := (len + 256 - 3) % 256, SENDERID := src,
             fifo := k :: rest } hs e1 e2
  simp only [interruptHandler]
  rw [hx]
  simp [withFlags]

/-- C16 (an unsolicited key delivery installs the key): on a session-enabled node,
whatever key it holds and whether or not it has asked for one, a frame with both
session bits set that carries `k` leaves `SESSION_KEY = k`; a following frame with only
session-included set, key byte `k` and wire length at least 4 is then accepted:
`DATALEN` is the wire length minus 4 and `receiveDone` in mode RX returns true. -/
theorem unsolicited_delivery_installs (cfg : Config) (s : Node)
    (len1 dst1 src1 ctl1 k : Nat) (rest1 : List Nat)
    (len2 dst2 src2 ctl2 : Nat) (payload : List Nat)
    (hen : s._sessionKeyEnabled = true)
    (h11 : ctl1 &&& cfg.RFM69_CTL_EXT1 ≠ 0) (h12 : ctl1 &&& cfg.RFM69_CTL_EXT2 ≠ 0)
    (h21 : ctl2 &&& cfg.RFM69_CTL_EXT1 = 0) (h22 : ctl2 &&& cfg.RFM69_CTL_EXT2 ≠ 0)
    (hlen : 4 ≤ len2) (hbyte : len2 < 256) :
    (interruptHandler cfg (len1 :: dst1 :: src1 :: ctl1 :: k :: rest1) s).SESSION_KEY = k ∧
    (interruptHandler cfg (len2 :: dst2 :: src2 :: ctl2 :: k :: payload)
      (interruptHandler cfg (len1 :: dst1 :: src1 :: ctl1 :: k :: rest1) s)).DATALEN
        = len2 - 4 ∧
    (receiveDone (setMode Mode.rx
      (interruptHandler cfg (len2 :: dst2 :: src2 :: ctl2 :: k :: payload)
        (interruptHandler cfg (len1 :: dst1 :: src1 :: ctl1 :: k :: rest1) s)))).1 = true := by
  have h1 := handler_install cfg s len1 dst1 src1 ctl1 k rest1 hen h11 h12
  have hk : (interruptHandler cfg (len1 :: dst1 :: src1 :: ctl1 :: k :: rest1) s).SESSION_KEY
      = k := by rw [h1]
  have he : (interruptHandler cfg (len1 :: dst1 :: src1 :: ctl1 :: k :: rest1) s)._sessionKeyEnabled
      = true := by rw [h1]; exact hen
  have h2 := handler_keyed_match cfg
    (interruptHandler cfg (len1 :: dst1 :: src1 :: ctl1 :: k :: rest1) s)
    len2 dst2 src2 ctl2 payload he h21 h22
  rw [hk] at h2
  have hpos : 0 < len2 := by omega
  refine ⟨hk, ?_, ?_⟩
  · rw [h2]
    show (len2 + 256 - 4) % 256 = len2 - 4
    omega
  · rw [h2]
    simp [receiveDone, setMode, withFlags, sessionKeyEnabled, he, hpos, hk]

/-- A node that holds key 200 and has asked for nothing takes a delivery of key 77 and
then accepts "PING" keyed with 77. -/
theorem unsolicited_delivery_installs_witness :
    (interruptHandler sampleConfig [4, 2, 9, 0x30, 77]
      { sampleNode 2 true with SESSION_KEY := 200 }).SESSION_KEY = 77 ∧
    (interruptHandler sampleConfig [8, 2, 9, 0x10, 77, 80, 73, 78, 71]
      (interruptHandler sampleConfig [4, 2, 9, 0x30, 77]
        { sampleNode 2 true with SESSION_KEY := 200 })).DATALEN = 8 - 4 ∧
    (receiveDone (setMode Mode.rx
      (interruptHandler sampleConfig [8, 2, 9, 0x10, 77, 80, 73, 78, 71]
        (interruptHandler sampleConfig [4, 2, 9, 0x30, 77]
          { sampleNode 2 true with SESSION_KEY := 200 })))).1 = true :=
  unsolicited_delivery_installs sampleConfig { sampleNode 2 true with SESSION_KEY := 200 }
    4 2 9 0x30 77 [] 8 2 9 0x10 [80, 73, 78, 71] rfl (by decide) (by decide) (by decide)
    (by decide) (by decide) (by decide)

/-- A frame with both session bits clear, at any node. -/
theorem handler_plain (cfg : Config) (s : Node) (len dst src ctl : Nat) (rest : List Nat)
    (e1 : ctl &&& cfg.RFM69_CTL_EXT1 = 0) (e2 : ctl &&& cfg.RFM69_CTL_EXT2 = 0) :
    interruptHandler cfg (len :: dst :: src :: ctl :: rest) s =
      { withFlags cfg ctl s with
        PAYLOADLEN := len, SENDERID := src, fifo := rest, DATALEN := (len + 256 - 3) % 256 } := by
  have hx := interruptHook_plain cfg ctl
    { s with PAYLOADLEN := len, DATALEN := (len + 256 - 3) % 256, SENDERID := src,
             fifo := rest } e1 e2
  simp only [interruptHandler]
  rw [hx]
  simp [withFlags]

/-- C17 (unkeyed frames on a session-enabled node are judged by stale keys): for a
frame with both session bits clear and wire length at least 3, `interruptHook` leaves
`DATALEN`, `SESSION_KEY`, `INCOMING_SESSION_KEY`, the FIFO and the transmit log as
they were, and the following `receiveDone` in mode RX returns true exactly when the
`INCOMING_SESSION_KEY` left by an earlier frame equals `SESSION_KEY`. So the frame is
delivered when both are at their start-up value 0, and also when it comes right after
an accepted keyed frame. -/
theorem unkeyed_frame_judged_by_stale_keys (cfg : Config) (s : Node) (ctl : Nat)
    (hen : s._sessionKeyEnabled = true)
    (h1 : ctl &&& cfg.RFM69_CTL_EXT1 = 0) (h2 : ctl &&& cfg.RFM69_CTL_EXT2 = 0)
    (hlen : 3 ≤ s.PAYLOADLEN) :
    (interruptHook cfg ctl s).DATALEN = s.DATALEN ∧
    (interruptHook cfg ctl s).SESSION_KEY = s.SESSION_KEY ∧
    (interruptHook cfg ctl s).INCOMING_SESSION_KEY = s.INCOMING_SESSION_KEY ∧
    (interruptHook cfg ctl s).fifo = s.fifo ∧
    (interruptHook cfg ctl s).sent = s.sent ∧
    ((receiveDone (setMode Mode.rx (interruptHook cfg ctl s))).1 = true ↔
      s.INCOMING_SESSION_KEY = s.SESSION_KEY) ∧
    (s.INCOMING_SESSION_KEY = 0 ∧ s.SESSION_KEY = 0 →
      (receiveDone (setMode Mode.rx (interruptHook cfg ctl s))).1 = true) ∧
    (∀ (prev : Node) (len1 dst1 src1 c : Nat) (payload : List Nat)
        (len2 dst2 src2 : Nat) (rest : List Nat),
      prev._sessionKeyEnabled = true →
      c &&& cfg.RFM69_CTL_EXT1 = 0 → c &&& cfg.RFM69_CTL_EXT2 ≠ 0 → 3 ≤ len2 →
      (receiveDone (setMode Mode.rx
        (interruptHandler cfg (len2 :: dst2 :: src2 :: ctl :: rest)
          (interruptHandler cfg (len1 :: dst1 :: src1 :: c :: prev.SESSION_KEY :: payload)
            prev)))).1 = true) := by
  have hpos : 0 < s.PAYLOADLEN := by omega
  have hiff : (receiveDone (setMode Mode.rx (interruptHook cfg ctl s))).1 = true ↔
      s.INCOMING_SESSION_KEY = s.SESSION_KEY := by
    rw [interruptHook_plain cfg ctl s h1 h2]
    by_cases hk : s.INCOMING_SESSION_KEY = s.SESSION_KEY <;>
      simp [receiveDone, setMode, withFlags, sessionKeyEnabled, hen, hpos, hk]
  refine ⟨?_, ?_, ?_, ?_, ?_, hiff, ?_, ?_⟩
  · rw [interruptHook_plain cfg ctl s h1 h2]; rfl
  · rw [interruptHook_plain cfg ctl s h1 h2]; rfl
  · rw [interruptHook_plain cfg ctl s h1 h2]; rfl
  · rw [interruptHook_plain cfg ctl s h1 h2]; rfl
  · rw [interruptHook_plain cfg ctl s h1 h2]; rfl
  · intro h0
    exact hiff.mpr (h0.1.trans h0.2.symm)
  · intro prev len1 dst1 src1 c payload len2 dst2 src2 rest hp hc1 hc2 hl2
    have hl2' : 0 < len2 := by omega
    rw [handler_plain cfg _ len2 dst2 src2 ctl rest h1 h2,
      handler_keyed_match cfg prev len1 dst1 src1 c payload hp hc1 hc2]
    simp [receiveDone, setMode, withFlags, sessionKeyEnabled, hp, hl2']

/-- A session-enabled node at start-up values (both keys 0) takes an unkeyed frame of
wire length 7. -/
theorem unkeyed_frame_judged_by_stale_keys_witness :
    (interruptHook sampleConfig 0 { sampleNode 2 true with PAYLOADLEN := 7, DATALEN := 4 }).DATALEN
      = 4 ∧
    (receiveDone (setMode Mode.rx (interruptHook sampleConfig 0
      { sampleNode 2 true with PAYLOADLEN := 7, DATALEN := 4 }))).1 = true :=
  have h := unkeyed_frame_judged_by_stale_keys sampleConfig
    { sampleNode 2 true with PAYLOADLEN := 7, DATALEN := 4 } 0 rfl (by decide) (by decide)
    (by decide)
  ⟨h.1, h.2.2.2.2.2.2.1 ⟨rfl, rfl⟩⟩

/-- C18 (with session support disabled the receive hook is inert): for every control
byte, `interruptHook` on a node with session support off changes only
`SESSION_KEY_REQUESTED` and `SESSION_KEY_INCLUDED`; `SESSION_KEY`,
`INCOMING_SESSION_KEY` and `DATALEN` are unchanged, no byte is read from the FIFO, no
random number is drawn and nothing is transmitted. -/
theorem hook_inert_when_disabled (cfg : Config) (ctl : Nat) (s : Node)
    (hen : s._sessionKeyEnabled = false) :
    interruptHook cfg ctl s =
      { s with SESSION_KEY_REQUESTED := ctl &&& cfg.RFM69_CTL_EXT1,
               SESSION_KEY_INCLUDED := ctl &&& cfg.RFM69_CTL_EXT2 } ∧
    (interruptHook cfg ctl s).SESSION_KEY = s.SESSION_KEY ∧
    (interruptHook cfg ctl s).INCOMING_SESSION_KEY = s.INCOMING_SESSION_KEY ∧
    (interruptHook cfg ctl s).DATALEN = s.DATALEN ∧
    (interruptHook cfg ctl s).fifo = s.fifo ∧
    (interruptHook cfg ctl s).randomSource = s.randomSource ∧
    (interruptHook cfg ctl s).sent = s.sent := by
  rw [interruptHook_disabled cfg ctl s hen]
  exact ⟨rfl, rfl, rfl, rfl, rfl, rfl, rfl⟩

/-- The keyed frame of `disabledKeyedNode`, and a key request, on a node with session
support off: the key byte stays in the FIFO and nothing is transmitted. -/
theorem hook_inert_when_disabled_witness :
    (interruptHook sampleConfig 0x20 disabledKeyedNode).SESSION_KEY = 77 ∧
    (interruptHook sampleConfig 0x20 disabledKeyedNode).DATALEN = 5 ∧
    (interruptHook sampleConfig 0x20 disabledKeyedNode).fifo = [77, 80, 73, 78, 71] ∧
    (interruptHook sampleConfig 0x20 disabledKeyedNode).sent = [] :=
  have h := hook_inert_when_disabled sampleConfig 0x20 disabledKeyedNode rfl
  ⟨h.2.1, h.2.2.2.1, h.2.2.2.2.1, h.2.2.2.2.2.2⟩

/-! ## Acknowledgements -/

theorem keyRequest_hasSessionRequested (cfg : Config) (frame : List Nat)
    (h : hasSessionRequested cfg frame = false) : isKeyRequest cfg frame = false := by
  rcases frame with _ | ⟨len, _ | ⟨dst, _ | ⟨src, _ | ⟨ctl, rest⟩⟩⟩⟩ <;>
    simp_all [isKeyRequest, hasSessionRequested]

/-- No key request is answered when session support is off or no frame with
session-requested set is among the frames. -/
theorem answered_none (cfg : Config) (enabled : Bool) (frames : List (List Nat))
    (h : enabled = false ∨ ∀ f ∈ frames, hasSessionRequested cfg f = false) :
    answered cfg enabled frames = [] := by
  rcases h with h | h
  · simp [answered, h]
  · cases enabled
    · simp [answered]
    · simp only [answered, if_true, List.filter_eq_nil_iff]
      intro f hf
      simp [keyRequest_hasSessionRequested cfg f (h f hf)]

/-- After its carrier-sense loop `sendACK` sends one frame; the session flag passed to
`sendFrame` is the enable flag. -/
theorem sendACK_eq (cfg : Config) (buffer : List Nat) (bufferSize : Nat)
    (channel : List CsmaEvent) (s : Node) :
    sendACK cfg buffer bufferSize channel s =
      { sendFrame cfg s.SENDERID buffer bufferSize false true false s._sessionKeyEnabled
          (csmaWait cfg channel s) with RSSI := s.RSSI } := by
  have c3 := (csmaWait_tracks cfg channel s).2.2.2
  cases he : s._sessionKeyEnabled <;>
    simp [sendACK, sessionKeyEnabled, c3, he, sendFrame5]

/-- C19, as stated, fails when a key request arrives while `sendACK` runs its
carrier-sense loop. Node 2 holds key 77 and acknowledges a frame of node 1; the loop
restarts reception, a key request of node 9 arrives, and the interrupt hook mints 200
and transmits a key delivery to node 9. `sendACK` has then transmitted two frames, the
acknowledgement carries key 200, not the 77 held on entry, and `SESSION_KEY` has
changed to 200. -/
theorem sendACK_key_request_counterexample :
    usedNode.SESSION_KEY = 77 ∧
    (sendACK sampleConfig [] 0
      [CsmaEvent.sense false, CsmaEvent.frame [3, 2, 9, 0x20], CsmaEvent.sense false,
        CsmaEvent.sense true]
      { usedNode with randomSource := [200], RSSI := -60 }).sent
        = [[4, 9, 2, 0x30, 200], [4, 1, 2, 0x90, 200]] ∧
    (sendACK sampleConfig [] 0
      [CsmaEvent.sense false, CsmaEvent.frame [3, 2, 9, 0x20], CsmaEvent.sense false,
        CsmaEvent.sense true]
      { usedNode with randomSource := [200], RSSI := -60 }).SESSION_KEY = 200 := by
  decide

/-- C19, amended (acknowledgements carry the current key): `sendACK` first answers,
through the interrupt hook, each key request that arrives during its carrier-sense
loop (when session support is enabled) with a key delivery, and then transmits exactly
one acknowledgement frame, last in the log. That frame is addressed to the sender id
held on entry and has send-ack set and request-ack and session-requested clear. With
session support enabled it has session-included set, the key byte `SESSION_KEY` held
when it is sent and length byte `m + 4`; with session support disabled it has no
session bit, no key byte and length byte `m + 3`, where
`m = min(bufferSize, RF69_MAX_DATA_LEN)`. `RSSI` has its value on entry. When session
support is disabled, or no frame with session-requested set arrives during the loop,
the acknowledgement is the only frame transmitted and `SESSION_KEY` is unchanged. -/
theorem sendACK_carries_key (cfg : Config) (buffer : List Nat) (bufferSize : Nat)
    (channel : List CsmaEvent) (s : Node)
    (hbits : cfg.DistinctBits) (hsize : bufferSize ≤ buffer.length)
    (hmax : cfg.RF69_MAX_DATA_LEN + 4 < 256) :
    (sendACK cfg buffer bufferSize channel s).sent = s.sent ++
      replies cfg s._address
        (answered cfg s._sessionKeyEnabled (csmaHeard cfg channel s)) s.randomSource ++
      [[if s._sessionKeyEnabled then min bufferSize cfg.RF69_MAX_DATA_LEN + 4
          else min bufferSize cfg.RF69_MAX_DATA_LEN + 3,
        s.SENDERID, s._address, ctlByte cfg false true false s._sessionKeyEnabled]
        ++ (if s._sessionKeyEnabled
            then [(sendACK cfg buffer bufferSize channel s).SESSION_KEY] else [])
        ++ buffer.take (min bufferSize cfg.RF69_MAX_DATA_LEN)] ∧
    ctlByte cfg false true false s._sessionKeyEnabled &&& cfg.RFM69_CTL_SENDACK ≠ 0 ∧
    ctlByte cfg false true false s._sessionKeyEnabled &&& cfg.RFM69_CTL_REQACK = 0 ∧
    ctlByte cfg false true false s._sessionKeyEnabled &&& cfg.RFM69_CTL_EXT1 = 0 ∧
    (ctlByte cfg false true false s._sessionKeyEnabled &&& cfg.RFM69_CTL_EXT2 ≠ 0 ↔
      s._sessionKeyEnabled = true) ∧
    (sendACK cfg buffer bufferSize channel s).RSSI = s.RSSI ∧
    (∃ later, csmaHeard cfg channel s ++ later = arrivals channel) ∧
    ((s._sessionKeyEnabled = false ∨
        ∀ f ∈ arrivals channel, hasSessionRequested cfg f = false) →
      (sendACK cfg buffer bufferSize channel s).SESSION_KEY = s.SESSION_KEY ∧
      (sendACK cfg buffer bufferSize channel s).sent = s.sent ++
        [[if s._sessionKeyEnabled then min bufferSize cfg.RF69_MAX_DATA_LEN + 4
            else min bufferSize cfg.RF69_MAX_DATA_LEN + 3,
          s.SENDERID, s._address, ctlByte cfg false true false s._sessionKeyEnabled]
          ++ (if s._sessionKeyEnabled then [s.SESSION_KEY] else [])
          ++ buffer.take (min bufferSize cfg.RF69_MAX_DATA_LEN)]) := by
  have d := hbits.disjoint
  obtain ⟨c1, _, c2, _⟩ := csmaWait_tracks cfg channel s
  have hlayout := sendFrame_layout cfg s.SENDERID buffer bufferSize false true false
    s._sessionKeyEnabled (csmaWait cfg channel s) hsize hmax
  rw [c1, c2] at hlayout
  have hkey : (sendACK cfg buffer bufferSize channel s).SESSION_KEY
      = (csmaWait cfg channel s).SESSION_KEY := by
    rw [sendACK_eq]
    rfl
  have hsent : (sendACK cfg buffer bufferSize channel s).sent
      = (sendFrame cfg s.SENDERID buffer bufferSize false true false s._sessionKeyEnabled
          (csmaWait cfg channel s)).sent := by
    rw [sendACK_eq]
  refine ⟨?_, ?_, ?_, ?_, ?_, ?_, csmaHeard_arrives cfg channel s, ?_⟩
  · rw [hsent, hkey]
    exact hlayout
  · rw [ctlByte_and_sendack d]
    exact d.sendack_ne
  · rw [ctlByte_and_reqack d]
    rfl
  · rw [ctlByte_and_ext1 d]
    rfl
  · rw [ctlByte_and_ext2 d]
    cases s._sessionKeyEnabled
    · simp
    · simpa using d.ext2_ne
  · rw [sendACK_eq]
  · intro hq'
    have hq : s._sessionKeyEnabled = false ∨
        ∀ f ∈ csmaHeard cfg channel s, hasSessionRequested cfg f = false := by
      rcases hq' with h | h
      · exact Or.inl h
      · obtain ⟨later, hl⟩ := csmaHeard_arrives cfg channel s
        exact Or.inr (fun f hf => h f (by rw [← hl]; exact List.mem_append_left _ hf))
    have hk := csmaWait_keeps_key cfg channel s hq
    have hnone := answered_none cfg s._sessionKeyEnabled (csmaHeard cfg channel s) hq
    refine ⟨hkey.trans hk, ?_⟩
    rw [hsent, hlayout, hnone, hk]
    simp [replies]

/-- Node 2, holding key 77, acknowledges a frame of node 1 with an empty buffer; during
its carrier-sense loop the channel is busy twice and an unkeyed frame of node 9
arrives. The RSSI of the acknowledged frame was -60. -/
theorem sendACK_carries_key_witness :
    (sendACK sampleConfig [] 0
      [CsmaEvent.sense false, CsmaEvent.frame [7, 2, 9, 0, 80, 73, 78, 71],
        CsmaEvent.sense false, CsmaEvent.sense true]
      { usedNode with RSSI := -60 }).RSSI = -60 ∧
    (sendACK sampleConfig [] 0
      [CsmaEvent.sense false, CsmaEvent.frame [7, 2, 9, 0, 80, 73, 78, 71],
        CsmaEvent.sense false, CsmaEvent.sense true]
      { usedNode with RSSI := -60 }).SESSION_KEY = 77 ∧
    (sendACK sampleConfig [] 0
      [CsmaEvent.sense false, CsmaEvent.frame [7, 2, 9, 0, 80, 73, 78, 71],
        CsmaEvent.sense false, CsmaEvent.sense true]
      { usedNode with RSSI := -60 }).sent = [[4, 1, 2, 0x90, 77]] :=
  have h := sendACK_carries_key sampleConfig [] 0
    [CsmaEvent.sense false, CsmaEvent.frame [7, 2, 9, 0, 80, 73, 78, 71],
      CsmaEvent.sense false, CsmaEvent.sense true]
    { usedNode with RSSI := -60 } (by decide) (by decide) (by decide)
  ⟨h.2.2.2.2.2.1, (h.2.2.2.2.2.2.2 (Or.inr (by decide))).1,
    (h.2.2.2.2.2.2.2 (Or.inr (by decide))).2⟩

/-! ## A minted key 0 -/

/-- Milliseconds of the wait in which nothing arrives leave the state as it is. -/
theorem waitForKey_quiet (cfg : Config) (env : WaitEnv) (remaining : Nat) :
    ∀ (elapsed : Nat) (s : Node),
      (∀ t, elapsed ≤ t → t < elapsed + remaining → env t = []) →
      waitForKey cfg env remaining elapsed s = s := by
  induction remaining with
  | zero => intro elapsed s _; rfl
  | succ r ih =>
    intro elapsed s hq
    by_cases hk : s.SESSION_KEY = 0
    · have h0 : env elapsed = [] := hq elapsed (le_refl _) (by omega)
      simp only [waitForKey, hk, if_true, h0, List.foldl_nil]
      exact ih (elapsed + 1) s (fun t h1 h2 => hq t (by omega) (by omega))
    · simp [waitForKey, hk]

/-- C14 (a minted key 0 stalls the handshake): the responder's random draw is 0, and
the key delivery it emits for the requester's request is the only frame the requester
receives during its wait. A session-enabled node that takes that delivery has
`SESSION_KEY = 0`, the value `sendWithSession` set before the request. So
`sendWithSession` ends with `SESSION_KEY = 0` having transmitted the request frame
only, never the payload; its transmit log and its `SESSION_KEY` are those of the call
in which nothing at all is received. -/
theorem minted_zero_stalls (cfg : Config) (a b : Node) (buffer : List Nat)
    (bufferSize : Nat) (requestACK : Bool) (retryWaitTime arrival : Nat) (env : WaitEnv)
    (delivery : List Nat)
    (hbits : cfg.DistinctBits)
    (ha : a._sessionKeyEnabled = true) (hb : b._sessionKeyEnabled = true)
    (hk : (random 256 b).1 = 0)
    (hresp : (interruptHandler cfg [3, b._address, a._address, cfg.RFM69_CTL_EXT1] b).sent
      = b.sent ++ [delivery])
    (hdel : env arrival = [delivery]) (hquiet : ∀ t, t ≠ arrival → env t = []) :
    (∀ q : Node, q._sessionKeyEnabled = true →
      (interruptHandler cfg delivery q).SESSION_KEY = 0) ∧
    (sendWithSession cfg b._address buffer bufferSize requestACK retryWaitTime env a).SESSION_KEY
      = 0 ∧
    (sendWithSession cfg b._address buffer bufferSize requestACK retryWaitTime env a).sent
      = a.sent ++ [[3, b._address, a._address, cfg.RFM69_CTL_EXT1]] ∧
    (sendWithSession cfg b._address buffer bufferSize requestACK retryWaitTime env a).sent
      = (sendWithSession cfg b._address buffer bufferSize requestACK retryWaitTime
          (fun _ => []) a).sent ∧
    (sendWithSession cfg b._address buffer bufferSize requestACK retryWaitTime env a).SESSION_KEY
      = (sendWithSession cfg b._address buffer bufferSize requestACK retryWaitTime
          (fun _ => []) a).SESSION_KEY := by
  have d := hbits.disjoint
  obtain ⟨r1, _, _⟩ := handler_request cfg d b b._address a._address hb
  rw [hk] at r1
  have hdelivery : delivery
      = [4, a._address, b._address, cfg.RFM69_CTL_EXT1 ||| cfg.RFM69_CTL_EXT2, 0] := by
    have h := hresp.symm.trans r1
    simpa using h
  obtain ⟨q1, _, q3, q4⟩ := requested_state cfg b._address a
  obtain ⟨p1, p2, _⟩ := handler_delivery cfg d
    (receiveBegin (sendFrame cfg b._address [] 0 false false true false
      { a with SESSION_KEY := 0 })) a._address b._address 0 (q3.trans ha)
  rw [← hdelivery] at p1 p2
  -- the wait ends with key 0 and the request alone in the log
  have hwait : (afterWait cfg b._address retryWaitTime env a).SESSION_KEY = 0 ∧
      (afterWait cfg b._address retryWaitTime env a).sent
        = a.sent ++ [[3, b._address, a._address, cfg.RFM69_CTL_EXT1]] := by
    unfold afterWait
    by_cases harr : arrival < retryWaitTime
    · obtain ⟨r, hr⟩ : ∃ r, retryWaitTime = (r + 1) + arrival :=
        ⟨retryWaitTime - arrival - 1, by omega⟩
      rw [hr, waitForKey_skip cfg env arrival (r + 1) 0 _ q4
        (by intro t ht; rw [Nat.zero_add]; exact hquiet t (by omega))]
      simp only [waitForKey, q4, if_true, Nat.zero_add, hdel, List.foldl_cons, List.foldl_nil]
      rw [waitForKey_quiet cfg env r (arrival + 1) _
        (fun t h1 _ => hquiet t (by omega))]
      exact ⟨p1, p2.trans q1⟩
    · rw [waitForKey_quiet cfg env retryWaitTime 0 _
        (fun t _ h2 => hquiet t (by omega))]
      exact ⟨q4, q1⟩
  have hsilent : afterWait cfg b._address retryWaitTime (fun _ => []) a
      = receiveBegin (sendFrame cfg b._address [] 0 false false true false
          { a with SESSION_KEY := 0 }) :=
    waitForKey_silent cfg (fun _ => []) (fun _ => rfl) retryWaitTime 0 _
  have hrun : (sendWithSession cfg b._address buffer bufferSize requestACK retryWaitTime env
      a) = afterWait cfg b._address retryWaitTime env a := by
    rw [sendWithSession_eq, if_pos hwait.1]
  have hrun0 : (sendWithSession cfg b._address buffer bufferSize requestACK retryWaitTime
      (fun _ => []) a) = afterWait cfg b._address retryWaitTime (fun _ => []) a := by
    rw [sendWithSession_eq, if_pos (by rw [hsilent]; exact q4)]
  refine ⟨?_, ?_, ?_, ?_, ?_⟩
  · intro q hq
    rw [hdelivery]
    exact (handler_delivery cfg d q a._address b._address 0 hq).1
  · rw [hrun]; exact hwait.1
  · rw [hrun]; exact hwait.2
  · rw [hrun, hrun0, hsilent, hwait.2, q1]
  · rw [hrun, hrun0, hsilent, hwait.1, q4]

/-- Node 2 mints 0 for node 1, whose "PING" then never leaves: the delivery arrives in
the third millisecond of a wait of 40. -/
theorem minted_zero_stalls_witness :
    (sendWithSession sampleConfig 2 [80, 73, 78, 71] 4 false 40
      (fun t => if t = 2 then [[4, 1, 2, 0x30, 0]] else []) (sampleNode 1 true)).SESSION_KEY
        = 0 ∧
    (sendWithSession sampleConfig 2 [80, 73, 78, 71] 4 false 40
      (fun t => if t = 2 then [[4, 1, 2, 0x30, 0]] else []) (sampleNode 1 true)).sent
        = [[3, 2, 1, 0x20]] :=
  have h := minted_zero_stalls sampleConfig (sampleNode 1 true)
    { sampleNode 2 true with randomSource := [0] } [80, 73, 78, 71] 4 false 40 2
    (fun t => if t = 2 then [[4, 1, 2, 0x30, 0]] else []) [4, 1, 2, 0x30, 0]
    (by decide) rfl rfl rfl (by decide) rfl
    (by intro t ht; simp [ht])
  ⟨h.2.1, h.2.2.1⟩

end RFM69SessionKey
